import Mathlib

/-!
Verification of the sample-selection and incremental-download planner of the
fiftyone dataset-ingestion utilities (`fiftyone/utils/activitynet.py` and
`fiftyone/utils/openimages.py`).

Shallow embedding notes:

* Sample identifiers are modelled as `Nat`.  The record payloads stored in the
  Python dicts `all_class_samples` / `any_class_samples` never influence any of
  the verified properties (only the keys do: lengths, membership, ordering and
  the fetch success per id), so the planner operates on key lists; where the
  payload structure itself is the object of a claim (the classifier
  `_get_matching_samples`) the payload is kept.
* A Python `dict` is modelled as a key list in insertion order with distinct
  keys; `dict.update` is `dictUpdate` below (existing keys keep their place,
  fresh keys are appended).
* CPython iterates a `set` in hash-table order, which is not a function of the
  construction order.  Every place the source writes `list(set(...))` is
  therefore modelled by an abstract enumeration oracle
  `enum : List Nat → List Nat` about which we only assume `ValidEnum`: it
  returns a duplicate-free listing of the distinct elements of its argument.
* `random.shuffle` is modelled by an oracle `shuf : Nat → List Nat → List Nat`
  (indexed by call site) assumed in `ValidShuf` to permute its argument; the
  seed and the Mersenne-Twister stream are absorbed into the oracle.
* `_do_download` (youtube-dl) is modelled by a success oracle
  `fetch : Nat → Bool`; the planner never raises, failures just skip.
* Python integer truthiness (`if requested_num:`), optional-int slicing
  (`l[:n]`, including `n = None` and negative `n`) and the comparison
  `len(downloaded) >= num_samples` are modelled bit-for-bit in `pyTruthy`,
  `pySlice`, `stopCheck`.
-/

namespace FiftyOne

/-- Python truthiness of an optional integer: `None` and `0` are falsy. -/
def pyTruthy : Option Int → Bool
  | none => false
  | some n => decide (n ≠ 0)

/-- The guard `requested_num is None or requested_num` used before tiers 2-4. -/
def pyGuard : Option Int → Bool
  | none => true
  | some n => decide (n ≠ 0)

/-- Python slice `l[:n]` for an optional stop `n`: `None` keeps the whole
list, a non-negative stop keeps the first `n` elements, a negative stop drops
the last `|n|` elements. -/
def pySlice {α : Type} (l : List α) : Option Int → List α
  | none => l
  | some n => if 0 ≤ n then l.take n.toNat else l.take (l.length - (-n).toNat)

/-- Elements of `xs` that are members of `ys`: the content of
`set(xs).intersection(set(ys))` (the enumeration order of the Python set is
supplied separately by the `enum` oracle). -/
def interIds (xs ys : List Nat) : List Nat :=
  xs.filter (fun a => decide (a ∈ ys))

/-- Elements of `xs` that are not members of `ys`: the content of
`set(xs) - set(ys)`. -/
def diffIds (xs ys : List Nat) : List Nat :=
  xs.filter (fun a => decide (a ∉ ys))

/-- Insert one key into a Python dict key list: an existing key keeps its
position, a fresh key is appended. -/
def dictInsert (ks : List Nat) (k : Nat) : List Nat :=
  if k ∈ ks then ks else ks ++ [k]

/-- Key effect of `d.update({i: ... for i in new})` on the key list of `d`. -/
def dictUpdate (ks new : List Nat) : List Nat :=
  new.foldl dictInsert ks

/-- The statement pair `if requested_num: requested_num -= k` (`None` and `0`
are left unchanged by the truthiness guard). -/
def pyDecr (r : Option Int) (k : Nat) : Option Int :=
  if pyTruthy r then r.map (fun n => n - (k : Int)) else r

/-- The stopping test `num_samples is not None and len(downloaded) >= num_samples`
of `_attempt_to_download`. -/
def stopCheck : Option Int → Nat → Bool
  | none, _ => false
  | some n, len => decide (n ≤ (len : Int))

/-- Result of a fetch tier: the ids successfully downloaded (in order) and the
trace of ids on which `_do_download` was invoked (in order). -/
structure FetchTrace where
  downloaded : List Nat
  att : List Nat
deriving Repr, DecidableEq

/-- Loop body of `_attempt_to_download`: try each id in order; a failure is
skipped, a success is recorded and the loop returns early once
`len(downloaded) >= num_samples` (never, when `num_samples` is `None`). -/
def attemptLoop (fetch : Nat → Bool) (numSamples : Option Int) :
    List Nat → List Nat → List Nat → FetchTrace
  | [], dl, att => ⟨dl, att⟩
  | i :: rest, dl, att =>
    if fetch i then
      if stopCheck numSamples (dl ++ [i]).length then ⟨dl ++ [i], att ++ [i]⟩
      else attemptLoop fetch numSamples rest (dl ++ [i]) (att ++ [i])
    else attemptLoop fetch numSamples rest dl (att ++ [i])

/-- `_attempt_to_download(videos_dir, ids, samples_info, num_samples)`,
instrumented with the trace of attempted ids. -/
def attempt_to_download (fetch : Nat → Bool) (ids : List Nat)
    (numSamples : Option Int) : FetchTrace :=
  attemptLoop fetch numSamples ids [] []

/-- Order oracle application at one call site: `list(set(...))` enumeration
followed by `if shuffle: random.shuffle(...)`. -/
def enumOrd (shuf : Nat → List Nat → List Nat) (shuffle : Bool) (i : Nat)
    (l : List Nat) : List Nat :=
  if shuffle then shuf i l else l

/-- Output of a presence tier (tiers 1 and 2): the accumulated key list of
`requested_samples`, the remaining `requested_num`, and the
`dl_*_class_ids` list computed by the tier (consumed by tiers 3 and 4). -/
structure TierOut where
  sel : List Nat
  req : Option Int
  cand : List Nat
deriving Repr, DecidableEq

/-- Output of a fetch tier (tiers 3 and 4). -/
structure FetchOut where
  sel : List Nat
  req : Option Int
  numDl : Nat
  att : List Nat
deriving Repr, DecidableEq

/-- Tier 1 of `_downloaded_necessary_samples`: take the all-class ids that are
already downloaded, up to `max_samples`. -/
def tier1 (enum : List Nat → List Nat) (shuf : Nat → List Nat → List Nat)
    (shuffle : Bool) (allClassIds prevIds : List Nat)
    (maxSamples : Option Int) : TierOut :=
  let dlAll := enumOrd shuf shuffle 0 (enum (interIds allClassIds prevIds))
  let addIds := pySlice dlAll maxSamples
  { sel := dictUpdate [] addIds
    req := pyDecr maxSamples addIds.length
    cand := dlAll }

/-- Tier 2: take the any-class ids that are already downloaded, up to the
remaining budget.  When the guard fails the Python code leaves
`dl_any_class_ids` undefined; it is then also never read (the remaining budget
is `0`, so tiers 3 and 4 are skipped), so `[]` is returned for it here. -/
def tier2 (enum : List Nat → List Nat) (shuf : Nat → List Nat → List Nat)
    (shuffle : Bool) (anyClassIds prevIds : List Nat) (sel : List Nat)
    (req : Option Int) : TierOut :=
  if pyGuard req then
    let dlAny := enumOrd shuf shuffle 1 (enum (interIds anyClassIds prevIds))
    let addIds := pySlice dlAny req
    { sel := dictUpdate sel addIds
      req := pyDecr req addIds.length
      cand := dlAny }
  else { sel := sel, req := req, cand := [] }

/-- Tier 3: attempt to download the all-class ids that are not yet downloaded,
up to the remaining budget. -/
def tier3 (enum : List Nat → List Nat) (shuf : Nat → List Nat → List Nat)
    (shuffle : Bool) (fetch : Nat → Bool) (allClassIds dlAll : List Nat)
    (sel : List Nat) (req : Option Int) : FetchOut :=
  if pyGuard req then
    let notDl := enumOrd shuf shuffle 2 (enum (diffIds allClassIds dlAll))
    let t := attempt_to_download fetch notDl req
    { sel := dictUpdate sel t.downloaded
      req := pyDecr req t.downloaded.length
      numDl := t.downloaded.length
      att := t.att }
  else { sel := sel, req := req, numDl := 0, att := [] }

/-- Tier 4: attempt to download the any-class ids that are not yet downloaded
(the source performs no budget decrement after this final tier). -/
def tier4 (enum : List Nat → List Nat) (shuf : Nat → List Nat → List Nat)
    (shuffle : Bool) (fetch : Nat → Bool) (anyClassIds dlAny : List Nat)
    (sel : List Nat) (req : Option Int) : FetchOut :=
  if pyGuard req then
    let notDl := enumOrd shuf shuffle 3 (enum (diffIds anyClassIds dlAny))
    let t := attempt_to_download fetch notDl req
    { sel := dictUpdate sel t.downloaded
      req := req
      numDl := t.downloaded.length
      att := t.att }
  else { sel := sel, req := req, numDl := 0, att := [] }

/-- The plan returned by one planner invocation: the key list of
`requested_samples` in dict insertion order, `num_downloaded_samples`, and the
instrumented trace of ids on which a download was attempted. -/
structure Plan where
  selected : List Nat
  numDownloaded : Nat
  att : List Nat
deriving Repr, DecidableEq

/-- State of `_downloaded_necessary_samples` after the two presence tiers
(tier 2 consumes the selection and remaining budget produced by tier 1). -/
def planT2 (enum : List Nat → List Nat) (shuf : Nat → List Nat → List Nat)
    (shuffle : Bool) (allClassIds anyClassIds prevDownloadedIds : List Nat)
    (maxSamples : Option Int) : TierOut :=
  tier2 enum shuf shuffle anyClassIds prevDownloadedIds
    (tier1 enum shuf shuffle allClassIds prevDownloadedIds maxSamples).sel
    (tier1 enum shuf shuffle allClassIds prevDownloadedIds maxSamples).req

/-- State after the first fetch tier (tier 3 consumes the tier-2 state and the
`dl_all_class_ids` list computed by tier 1). -/
def planT3 (enum : List Nat → List Nat) (shuf : Nat → List Nat → List Nat)
    (shuffle : Bool) (fetch : Nat → Bool)
    (allClassIds anyClassIds prevDownloadedIds : List Nat)
    (maxSamples : Option Int) : FetchOut :=
  tier3 enum shuf shuffle fetch allClassIds
    (tier1 enum shuf shuffle allClassIds prevDownloadedIds maxSamples).cand
    (planT2 enum shuf shuffle allClassIds anyClassIds prevDownloadedIds
      maxSamples).sel
    (planT2 enum shuf shuffle allClassIds anyClassIds prevDownloadedIds
      maxSamples).req

/-- State after the second fetch tier (tier 4 consumes the tier-3 state and
the `dl_any_class_ids` list computed by tier 2). -/
def planT4 (enum : List Nat → List Nat) (shuf : Nat → List Nat → List Nat)
    (shuffle : Bool) (fetch : Nat → Bool)
    (allClassIds anyClassIds prevDownloadedIds : List Nat)
    (maxSamples : Option Int) : FetchOut :=
  tier4 enum shuf shuffle fetch anyClassIds
    (planT2 enum shuf shuffle allClassIds anyClassIds prevDownloadedIds
      maxSamples).cand
    (planT3 enum shuf shuffle fetch allClassIds anyClassIds prevDownloadedIds
      maxSamples).sel
    (planT3 enum shuf shuffle fetch allClassIds anyClassIds prevDownloadedIds
      maxSamples).req

/-- `_downloaded_necessary_samples` of `fiftyone/utils/activitynet.py`: the
four-tier selection planner.  The function is total: the source raises no
exception on any input (fetch failures are skipped inside
`_attempt_to_download`). -/
def downloaded_necessary_samples (enum : List Nat → List Nat)
    (shuf : Nat → List Nat → List Nat) (fetch : Nat → Bool)
    (allClassIds anyClassIds prevDownloadedIds : List Nat)
    (maxSamples : Option Int) (shuffle : Bool) : Plan :=
  { selected := (planT4 enum shuf shuffle fetch allClassIds anyClassIds
      prevDownloadedIds maxSamples).sel
    numDownloaded := (planT3 enum shuf shuffle fetch allClassIds anyClassIds
        prevDownloadedIds maxSamples).numDl +
      (planT4 enum shuf shuffle fetch allClassIds anyClassIds
        prevDownloadedIds maxSamples).numDl
    att := (planT3 enum shuf shuffle fetch allClassIds anyClassIds
        prevDownloadedIds maxSamples).att ++
      (planT4 enum shuf shuffle fetch allClassIds anyClassIds
        prevDownloadedIds maxSamples).att }

/-- Lines 435-441 of `fiftyone/utils/openimages.py` inside
`_load_open_images_split`: `valid_ids = list(valid_ids); if max_samples:
random.shuffle(valid_ids); valid_ids = valid_ids[:max_samples]`, followed by
`if not valid_ids: raise ValueError("No samples found")`.  The unseeded
`random.shuffle` is the oracle `shufO`; `validIds` is the enumeration of the
`valid_ids` set. -/
def load_open_images_split_select (shufO : List Nat → List Nat)
    (validIds : List Nat) (maxSamples : Option Int) :
    Except String (List Nat) :=
  let v := if pyTruthy maxSamples
    then pySlice (shufO validIds) maxSamples
    else validIds
  if v.isEmpty then Except.error "No samples found" else Except.ok v

/-- Annotation info of one database entry, as consumed by
`_get_matching_samples`: the split tag of the sample and the set of labels of
its annotation list (split names and class labels are modelled as `Nat`). -/
structure SampleInfo where
  subset : Nat
  labels : List Nat
deriving Repr, DecidableEq

/-- `class_set.issubset(annot_labels)`. -/
def issubset (cs ls : List Nat) : Bool :=
  cs.all (fun c => decide (c ∈ ls))

/-- Nonemptiness of `class_set & annot_labels`. -/
def intersects (cs ls : List Nat) : Bool :=
  cs.any (fun c => decide (c ∈ ls))

/-- `_get_matching_samples(raw_annotations, classes, split)`: walk the
database in order and classify each sample of the requested split; a sample
whose labels contain every requested class goes to `all_class_match`, else one
sharing at least one class goes to `any_class_match`.  Returns
`(any_class_match, all_class_match)` as association lists in insertion
order. -/
def get_matching_samples (database : List (Nat × SampleInfo))
    (classes : List Nat) (split : Nat) :
    List (Nat × SampleInfo) × List (Nat × SampleInfo) :=
  match database with
  | [] => ([], [])
  | e :: rest =>
    let r := get_matching_samples rest classes split
    if e.2.subset = split then
      if issubset classes e.2.labels then (r.1, e :: r.2)
      else if intersects classes e.2.labels then (e :: r.1, r.2)
      else r
    else r

/-- Index of the last `.` in a character list, if any. -/
def rfindDot : List Char → Option Nat
  | [] => none
  | c :: rest =>
    match rfindDot rest with
    | some i => some (i + 1)
    | none => if c = '.' then some 0 else none

/-- `os.path.splitext` on a bare filename (no directory separators): split at
the last dot, but only when a non-dot character precedes it (a leading run of
dots, as in `.part` or `..x`, is part of the root, not an extension). -/
def splitext (s : String) : String × String :=
  let cs := s.data
  match rfindDot cs with
  | none => (s, "")
  | some i =>
    if (cs.takeWhile (fun c => c = '.')).length < i then
      (⟨cs.take i⟩, ⟨cs.drop i⟩)
    else (s, "")

/-- `_get_downloaded_sample_ids(videos_dir)`: walk the directory listing; a
file whose extension is `.part` is removed and contributes no id, any other
file contributes its stem as a downloaded sample id.  Returns
`(video_ids, removed_files)`, the removal side effect being returned
explicitly. -/
def get_downloaded_sample_ids (videoFilenames : List String) :
    List String × List String :=
  match videoFilenames with
  | [] => ([], [])
  | vfn :: rest =>
    let r := get_downloaded_sample_ids rest
    if (splitext vfn).2 = ".part" then (r.1, vfn :: r.2)
    else ((splitext vfn).1 :: r.1, r.2)

/-- Validity of a set-enumeration oracle: `enum xs` lists the distinct
elements of `xs`, each exactly once, in some order. -/
def ValidEnum (enum : List Nat → List Nat) : Prop :=
  ∀ xs, (enum xs).Nodup ∧ ∀ a, a ∈ enum xs ↔ a ∈ xs

/-- Validity of a shuffle oracle: each call permutes its argument. -/
def ValidShuf (shuf : Nat → List Nat → List Nat) : Prop :=
  ∀ i xs, (shuf i xs).Perm xs

/-! ### Basic lemmas about the Python-semantics helpers -/

lemma pyGuard_false_iff (r : Option Int) : pyGuard r = false ↔ r = some 0 := by
  cases r with
  | none => simp [pyGuard]
  | some n => simp [pyGuard]

lemma pyTruthy_some_iff (n : Int) : pyTruthy (some n) = true ↔ n ≠ 0 := by
  simp [pyTruthy]

lemma pySlice_sublist {α : Type} (l : List α) (r : Option Int) :
    (pySlice l r).Sublist l := by
  cases r with
  | none => simp [pySlice]
  | some n =>
    by_cases h : 0 ≤ n <;> simp [pySlice, h, List.take_sublist]

lemma pySlice_length_le (l : List Nat) {n : Int} (h : 0 ≤ n) :
    (pySlice l (some n)).length ≤ n.toNat := by
  simp [pySlice, h, List.length_take]

lemma pySlice_length_eq (l : List Nat) {n : Int} (h : 0 ≤ n)
    (hl : n.toNat ≤ l.length) : (pySlice l (some n)).length = n.toNat := by
  simp [pySlice, h, List.length_take]
  omega

lemma pySlice_nonneg_eq (l : List Nat) {n : Int} (h : 0 ≤ n) :
    pySlice l (some n) = l.take n.toNat := by
  simp [pySlice, h]

lemma pyDecr_none (k : Nat) : pyDecr none k = none := rfl

lemma pyDecr_eq_sub {c : Int} (k : Nat) (h0 : 0 ≤ c) (hk : (k : Int) ≤ c) :
    pyDecr (some c) k = some (c - k) := by
  by_cases hc : c = 0
  · subst hc
    have hk0 : k = 0 := by omega
    subst hk0
    simp [pyDecr, pyTruthy]
  · simp [pyDecr, pyTruthy, hc]

lemma pyDecr_of_ne_zero {c : Int} (k : Nat) (h : c ≠ 0) :
    pyDecr (some c) k = some (c - k) := by
  simp [pyDecr, pyTruthy, h]

lemma pyDecr_zero (r : Option Int) : pyDecr r 0 = r := by
  cases r with
  | none => rfl
  | some n => by_cases h : n = 0 <;> simp [pyDecr, pyTruthy, h]

lemma mem_interIds {a : Nat} {xs ys : List Nat} :
    a ∈ interIds xs ys ↔ a ∈ xs ∧ a ∈ ys := by
  simp [interIds]

lemma mem_diffIds {a : Nat} {xs ys : List Nat} :
    a ∈ diffIds xs ys ↔ a ∈ xs ∧ a ∉ ys := by
  simp [diffIds]

lemma mem_dictInsert {a k : Nat} {s : List Nat} :
    a ∈ dictInsert s k ↔ a ∈ s ∨ a = k := by
  by_cases h : k ∈ s
  · simp only [dictInsert, if_pos h]
    constructor
    · exact Or.inl
    · rintro (ha | rfl)
      · exact ha
      · exact h
  · simp [dictInsert, if_neg h]

lemma dictInsert_nodup {s : List Nat} (k : Nat) (h : s.Nodup) :
    (dictInsert s k).Nodup := by
  by_cases hk : k ∈ s
  · simpa [dictInsert, hk] using h
  · simp only [dictInsert, if_neg hk]
    simpa [List.nodup_append, h] using hk

lemma dictInsert_length_le (s : List Nat) (k : Nat) :
    (dictInsert s k).length ≤ s.length + 1 := by
  by_cases hk : k ∈ s <;> simp [dictInsert, hk]

lemma mem_dictUpdate {a : Nat} {s ks : List Nat} :
    a ∈ dictUpdate s ks ↔ a ∈ s ∨ a ∈ ks := by
  induction ks generalizing s with
  | nil => simp [dictUpdate]
  | cons k rest ih =>
    show a ∈ dictUpdate (dictInsert s k) rest ↔ _
    rw [ih, mem_dictInsert]
    simp only [List.mem_cons]
    tauto

lemma dictUpdate_nodup {s : List Nat} (ks : List Nat) (h : s.Nodup) :
    (dictUpdate s ks).Nodup := by
  induction ks generalizing s with
  | nil => exact h
  | cons k rest ih => exact ih (dictInsert_nodup k h)

lemma dictUpdate_length_le (s ks : List Nat) :
    (dictUpdate s ks).length ≤ s.length + ks.length := by
  induction ks generalizing s with
  | nil => simp [dictUpdate]
  | cons k rest ih =>
    have h1 := ih (dictInsert s k)
    have h2 := dictInsert_length_le s k
    show (dictUpdate (dictInsert s k) rest).length ≤ _
    simp only [List.length_cons]
    omega

lemma dictUpdate_nil (s : List Nat) : dictUpdate s [] = s := rfl

lemma dictUpdate_of_append_nodup {s ks : List Nat} (h : (s ++ ks).Nodup) :
    dictUpdate s ks = s ++ ks := by
  induction ks generalizing s with
  | nil => simp [dictUpdate]
  | cons k rest ih =>
    have hk : k ∉ s := by
      intro hks
      have := List.disjoint_of_nodup_append h hks
      simp at this
    have hins : dictInsert s k = s ++ [k] := by simp [dictInsert, hk]
    show dictUpdate (dictInsert s k) rest = _
    rw [hins, ih (by simpa using h)]
    simp

lemma dictUpdate_nil_of_nodup {ks : List Nat} (h : ks.Nodup) :
    dictUpdate [] ks = ks := by
  simpa using dictUpdate_of_append_nodup (s := []) (by simpa using h)

lemma enumOrd_perm {shuf : Nat → List Nat → List Nat} (hs : ValidShuf shuf)
    (shuffle : Bool) (i : Nat) (l : List Nat) :
    (enumOrd shuf shuffle i l).Perm l := by
  cases shuffle with
  | false => simp [enumOrd]
  | true => simpa [enumOrd] using hs i l

lemma candList_spec {enum : List Nat → List Nat}
    {shuf : Nat → List Nat → List Nat} (he : ValidEnum enum)
    (hs : ValidShuf shuf) (shuffle : Bool) (i : Nat) (xs : List Nat) :
    (enumOrd shuf shuffle i (enum xs)).Nodup ∧
      ∀ a, a ∈ enumOrd shuf shuffle i (enum xs) ↔ a ∈ xs := by
  have hperm := enumOrd_perm hs shuffle i (enum xs)
  refine ⟨hperm.nodup_iff.mpr (he xs).1, fun a => ?_⟩
  rw [hperm.mem_iff]
  exact (he xs).2 a

/-! ### Lemmas about the fetch loop of `_attempt_to_download` -/

lemma attemptLoop_cons (fetch : Nat → Bool) (ns : Option Int) (i : Nat)
    (rest dl att : List Nat) :
    attemptLoop fetch ns (i :: rest) dl att =
      if fetch i then
        if stopCheck ns (dl.length + 1) then ⟨dl ++ [i], att ++ [i]⟩
        else attemptLoop fetch ns rest (dl ++ [i]) (att ++ [i])
      else attemptLoop fetch ns rest dl (att ++ [i]) := by
  simp [attemptLoop]

lemma attemptLoop_master (fetch : Nat → Bool) (ns : Option Int)
    (ids : List Nat) : ∀ dl att : List Nat, ∃ k : Nat,
      (attemptLoop fetch ns ids dl att).att = att ++ ids.take k ∧
      (attemptLoop fetch ns ids dl att).downloaded =
        dl ++ (ids.take k).filter fetch := by
  induction ids with
  | nil => exact fun dl att => ⟨0, by simp [attemptLoop], by simp [attemptLoop]⟩
  | cons i rest ih =>
    intro dl att
    rw [attemptLoop_cons]
    by_cases hf : fetch i
    · by_cases hst : stopCheck ns (dl.length + 1)
      · refine ⟨1, ?_, ?_⟩ <;> simp [hf, hst]
      · obtain ⟨k, h1, h2⟩ := ih (dl ++ [i]) (att ++ [i])
        refine ⟨k + 1, ?_, ?_⟩ <;>
          simp [hf, hst, h1, h2, List.filter_cons]
    · obtain ⟨k, h1, h2⟩ := ih dl (att ++ [i])
      refine ⟨k + 1, ?_, ?_⟩ <;>
        simp [hf, h1, h2, List.filter_cons]

lemma attemptLoop_none_eq (fetch : Nat → Bool) (ids : List Nat) :
    ∀ dl att, attemptLoop fetch none ids dl att =
      ⟨dl ++ ids.filter fetch, att ++ ids⟩ := by
  induction ids with
  | nil => intro dl att; simp [attemptLoop]
  | cons i rest ih =>
    intro dl att
    by_cases hf : fetch i <;>
      simp [attemptLoop, hf, stopCheck, ih, List.filter_cons]

lemma attemptLoop_all_false (fetch : Nat → Bool) (ns : Option Int)
    (ids : List Nat) : ∀ dl att, (∀ i ∈ ids, fetch i = false) →
      attemptLoop fetch ns ids dl att = ⟨dl, att ++ ids⟩ := by
  induction ids with
  | nil => intro dl att _; simp [attemptLoop]
  | cons i rest ih =>
    intro dl att h
    have hf : fetch i = false := h i (by simp)
    simp [attemptLoop, hf, ih _ _ (fun j hj => h j (by simp [hj]))]

lemma attemptLoop_length_le (fetch : Nat → Bool) {n : Int} (ids : List Nat) :
    ∀ dl att, (dl.length : Int) < n →
      ((attemptLoop fetch (some n) ids dl att).downloaded).length ≤
        n.toNat := by
  induction ids with
  | nil =>
    intro dl att h
    simp only [attemptLoop]
    omega
  | cons i rest ih =>
    intro dl att h
    rw [attemptLoop_cons]
    by_cases hf : fetch i
    · by_cases hst : stopCheck (some n) (dl.length + 1)
      · have hn : n ≤ (dl.length : Int) + 1 := by
          simpa [stopCheck] using hst
        simp only [if_pos hf, if_pos hst, List.length_append,
          List.length_singleton]
        omega
      · have hn : ¬ n ≤ (dl.length : Int) + 1 := by
          simpa [stopCheck] using hst
        simp only [if_pos hf, if_neg hst]
        refine ih (dl ++ [i]) (att ++ [i]) ?_
        simp only [List.length_append, List.length_singleton]
        push_cast
        omega
    · simp only [if_neg hf]
      exact ih dl (att ++ [i]) h

lemma attemptLoop_stop_succ (fetch : Nat → Bool) {n : Int} (ids : List Nat) :
    ∀ dl att, n ≤ (dl.length : Int) + 1 →
      ((attemptLoop fetch (some n) ids dl att).downloaded).length ≤
        dl.length + 1 := by
  induction ids with
  | nil =>
    intro dl att _
    simp [attemptLoop]
  | cons i rest ih =>
    intro dl att h
    rw [attemptLoop_cons]
    by_cases hf : fetch i
    · have hst : stopCheck (some n) (dl.length + 1) = true := by
        simp only [stopCheck, decide_eq_true_eq]
        push_cast
        omega
      simp [hf, hst]
    · simp only [if_neg hf]
      exact ih dl (att ++ [i]) h

/-! ### Per-tier lemmas -/

section TierLemmas

variable {enum : List Nat → List Nat} {shuf : Nat → List Nat → List Nat}
variable {fetch : Nat → Bool} {shuffle : Bool}
variable {allClassIds anyClassIds prevIds dlAll dlAny sel : List Nat}
variable {req maxSamples : Option Int}

lemma tier2_guard_false (h : pyGuard req = false) :
    tier2 enum shuf shuffle anyClassIds prevIds sel req =
      ⟨sel, req, []⟩ := by
  simp [tier2, h]

lemma tier3_guard_false (h : pyGuard req = false) :
    tier3 enum shuf shuffle fetch allClassIds dlAll sel req =
      ⟨sel, req, 0, []⟩ := by
  simp [tier3, h]

lemma tier4_guard_false (h : pyGuard req = false) :
    tier4 enum shuf shuffle fetch anyClassIds dlAny sel req =
      ⟨sel, req, 0, []⟩ := by
  simp [tier4, h]

lemma tier1_cand_nodup (he : ValidEnum enum) (hs : ValidShuf shuf) :
    (tier1 enum shuf shuffle allClassIds prevIds maxSamples).cand.Nodup :=
  (candList_spec he hs shuffle 0 (interIds allClassIds prevIds)).1

lemma tier1_cand_mem (he : ValidEnum enum) (hs : ValidShuf shuf) (a : Nat) :
    a ∈ (tier1 enum shuf shuffle allClassIds prevIds maxSamples).cand ↔
      a ∈ allClassIds ∧ a ∈ prevIds := by
  rw [show (tier1 enum shuf shuffle allClassIds prevIds maxSamples).cand =
    enumOrd shuf shuffle 0 (enum (interIds allClassIds prevIds)) from rfl,
    (candList_spec he hs shuffle 0 (interIds allClassIds prevIds)).2 a]
  exact mem_interIds

lemma tier1_sel_nodup :
    (tier1 enum shuf shuffle allClassIds prevIds maxSamples).sel.Nodup :=
  dictUpdate_nodup _ List.nodup_nil

lemma tier1_sel_mem (he : ValidEnum enum) (hs : ValidShuf shuf) :
    ∀ a ∈ (tier1 enum shuf shuffle allClassIds prevIds maxSamples).sel,
      a ∈ allClassIds ∧ a ∈ prevIds := by
  intro a ha
  rw [show (tier1 enum shuf shuffle allClassIds prevIds maxSamples).sel =
    dictUpdate [] (pySlice (tier1 enum shuf shuffle allClassIds prevIds
      maxSamples).cand maxSamples) from rfl, mem_dictUpdate] at ha
  rcases ha with ha | ha
  · simp at ha
  · exact (tier1_cand_mem he hs a).mp ((pySlice_sublist _ _).mem ha)

lemma tier2_sel_nodup (h : sel.Nodup) :
    (tier2 enum shuf shuffle anyClassIds prevIds sel req).sel.Nodup := by
  by_cases hg : pyGuard req
  · simp only [tier2, if_pos hg]
    exact dictUpdate_nodup _ h
  · simp only [tier2, if_neg hg]
    exact h

lemma tier2_cand_mem (he : ValidEnum enum) (hs : ValidShuf shuf) :
    ∀ a ∈ (tier2 enum shuf shuffle anyClassIds prevIds sel req).cand,
      a ∈ anyClassIds ∧ a ∈ prevIds := by
  intro a ha
  by_cases hg : pyGuard req
  · simp only [tier2, if_pos hg] at ha
    exact mem_interIds.mp
      (((candList_spec he hs shuffle 1 (interIds anyClassIds prevIds)).2
        a).mp ha)
  · simp only [tier2, if_neg hg] at ha
    simp at ha

lemma tier2_sel_mem (he : ValidEnum enum) (hs : ValidShuf shuf) :
    ∀ a ∈ (tier2 enum shuf shuffle anyClassIds prevIds sel req).sel,
      a ∈ sel ∨ (a ∈ anyClassIds ∧ a ∈ prevIds) := by
  intro a ha
  by_cases hg : pyGuard req
  · simp only [tier2, if_pos hg] at ha
    rw [mem_dictUpdate] at ha
    rcases ha with ha | ha
    · exact Or.inl ha
    · refine Or.inr (mem_interIds.mp ?_)
      exact ((candList_spec he hs shuffle 1
        (interIds anyClassIds prevIds)).2 a).mp ((pySlice_sublist _ _).mem ha)
  · simp only [tier2, if_neg hg] at ha
    exact Or.inl ha

lemma tier3_sel_nodup (h : sel.Nodup) :
    (tier3 enum shuf shuffle fetch allClassIds dlAll sel req).sel.Nodup := by
  by_cases hg : pyGuard req
  · simp only [tier3, if_pos hg]
    exact dictUpdate_nodup _ h
  · simp only [tier3, if_neg hg]
    exact h

lemma tier3_att_spec (he : ValidEnum enum) (hs : ValidShuf shuf) :
    (tier3 enum shuf shuffle fetch allClassIds dlAll sel req).att.Nodup ∧
      ∀ a ∈ (tier3 enum shuf shuffle fetch allClassIds dlAll sel req).att,
        a ∈ allClassIds ∧ a ∉ dlAll := by
  by_cases hg : pyGuard req
  · simp only [tier3, if_pos hg]
    obtain ⟨hnd, hmem⟩ := candList_spec he hs shuffle 2 (diffIds allClassIds dlAll)
    obtain ⟨k, hatt, -⟩ := attemptLoop_master fetch req
      (enumOrd shuf shuffle 2 (enum (diffIds allClassIds dlAll))) [] []
    rw [show (attempt_to_download fetch
      (enumOrd shuf shuffle 2 (enum (diffIds allClassIds dlAll))) req).att =
      (attemptLoop fetch req
        (enumOrd shuf shuffle 2 (enum (diffIds allClassIds dlAll))) [] []).att
      from rfl, hatt]
    simp only [List.nil_append]
    constructor
    · exact hnd.sublist (List.take_sublist _ _)
    · intro a ha
      exact mem_diffIds.mp ((hmem a).mp ((List.take_sublist _ _).mem ha))
  · simp only [tier3, if_neg hg]
    simp

lemma tier3_sel_mem (he : ValidEnum enum) (hs : ValidShuf shuf) :
    ∀ a ∈ (tier3 enum shuf shuffle fetch allClassIds dlAll sel req).sel,
      a ∈ sel ∨ (a ∈ allClassIds ∧ a ∉ dlAll) := by
  intro a ha
  by_cases hg : pyGuard req
  · simp only [tier3, if_pos hg] at ha
    rw [mem_dictUpdate] at ha
    rcases ha with ha | ha
    · exact Or.inl ha
    · obtain ⟨hnd, hmem⟩ :=
        candList_spec he hs shuffle 2 (diffIds allClassIds dlAll)
      obtain ⟨k, -, hdl⟩ := attemptLoop_master fetch req
        (enumOrd shuf shuffle 2 (enum (diffIds allClassIds dlAll))) [] []
      rw [show (attempt_to_download fetch
        (enumOrd shuf shuffle 2 (enum (diffIds allClassIds dlAll)))
          req).downloaded =
        (attemptLoop fetch req
          (enumOrd shuf shuffle 2 (enum (diffIds allClassIds dlAll)))
            [] []).downloaded from rfl, hdl] at ha
      simp only [List.nil_append] at ha
      have : a ∈ enumOrd shuf shuffle 2 (enum (diffIds allClassIds dlAll)) :=
        (List.take_sublist _ _).mem (List.mem_of_mem_filter ha)
      exact Or.inr (mem_diffIds.mp ((hmem a).mp this))
  · simp only [tier3, if_neg hg] at ha
    exact Or.inl ha

lemma tier4_sel_nodup (h : sel.Nodup) :
    (tier4 enum shuf shuffle fetch anyClassIds dlAny sel req).sel.Nodup := by
  by_cases hg : pyGuard req
  · simp only [tier4, if_pos hg]
    exact dictUpdate_nodup _ h
  · simp only [tier4, if_neg hg]
    exact h

lemma tier4_att_spec (he : ValidEnum enum) (hs : ValidShuf shuf) :
    (tier4 enum shuf shuffle fetch anyClassIds dlAny sel req).att.Nodup ∧
      ∀ a ∈ (tier4 enum shuf shuffle fetch anyClassIds dlAny sel req).att,
        a ∈ anyClassIds ∧ a ∉ dlAny := by
  by_cases hg : pyGuard req
  · simp only [tier4, if_pos hg]
    obtain ⟨hnd, hmem⟩ := candList_spec he hs shuffle 3 (diffIds anyClassIds dlAny)
    obtain ⟨k, hatt, -⟩ := attemptLoop_master fetch req
      (enumOrd shuf shuffle 3 (enum (diffIds anyClassIds dlAny))) [] []
    rw [show (attempt_to_download fetch
      (enumOrd shuf shuffle 3 (enum (diffIds anyClassIds dlAny))) req).att =
      (attemptLoop fetch req
        (enumOrd shuf shuffle 3 (enum (diffIds anyClassIds dlAny))) [] []).att
      from rfl, hatt]
    simp only [List.nil_append]
    constructor
    · exact hnd.sublist (List.take_sublist _ _)
    · intro a ha
      exact mem_diffIds.mp ((hmem a).mp ((List.take_sublist _ _).mem ha))
  · simp only [tier4, if_neg hg]
    simp

lemma tier4_sel_mem (he : ValidEnum enum) (hs : ValidShuf shuf) :
    ∀ a ∈ (tier4 enum shuf shuffle fetch anyClassIds dlAny sel req).sel,
      a ∈ sel ∨ (a ∈ anyClassIds ∧ a ∉ dlAny) := by
  intro a ha
  by_cases hg : pyGuard req
  · simp only [tier4, if_pos hg] at ha
    rw [mem_dictUpdate] at ha
    rcases ha with ha | ha
    · exact Or.inl ha
    · obtain ⟨hnd, hmem⟩ :=
        candList_spec he hs shuffle 3 (diffIds anyClassIds dlAny)
      obtain ⟨k, -, hdl⟩ := attemptLoop_master fetch req
        (enumOrd shuf shuffle 3 (enum (diffIds anyClassIds dlAny))) [] []
      rw [show (attempt_to_download fetch
        (enumOrd shuf shuffle 3 (enum (diffIds anyClassIds dlAny)))
          req).downloaded =
        (attemptLoop fetch req
          (enumOrd shuf shuffle 3 (enum (diffIds anyClassIds dlAny)))
            [] []).downloaded from rfl, hdl] at ha
      simp only [List.nil_append] at ha
      have : a ∈ enumOrd shuf shuffle 3 (enum (diffIds anyClassIds dlAny)) :=
        (List.take_sublist _ _).mem (List.mem_of_mem_filter ha)
      exact Or.inr (mem_diffIds.mp ((hmem a).mp this))
  · simp only [tier4, if_neg hg] at ha
    exact Or.inl ha

lemma tier1_sel_eq :
    (tier1 enum shuf shuffle allClassIds prevIds maxSamples).sel =
      dictUpdate [] (pySlice
        (tier1 enum shuf shuffle allClassIds prevIds maxSamples).cand
        maxSamples) := rfl

lemma tier1_req_eq :
    (tier1 enum shuf shuffle allClassIds prevIds maxSamples).req =
      pyDecr maxSamples (pySlice
        (tier1 enum shuf shuffle allClassIds prevIds maxSamples).cand
        maxSamples).length := rfl

lemma tier2_guard_true (hg : pyGuard req = true) :
    tier2 enum shuf shuffle anyClassIds prevIds sel req =
      { sel := dictUpdate sel (pySlice
          (enumOrd shuf shuffle 1 (enum (interIds anyClassIds prevIds))) req)
        req := pyDecr req (pySlice
          (enumOrd shuf shuffle 1 (enum (interIds anyClassIds prevIds)))
            req).length
        cand := enumOrd shuf shuffle 1 (enum (interIds anyClassIds prevIds)) }
      := by
  simp [tier2, hg]

lemma tier3_guard_true (hg : pyGuard req = true) :
    tier3 enum shuf shuffle fetch allClassIds dlAll sel req =
      { sel := dictUpdate sel (attempt_to_download fetch
          (enumOrd shuf shuffle 2 (enum (diffIds allClassIds dlAll)))
            req).downloaded
        req := pyDecr req ((attempt_to_download fetch
          (enumOrd shuf shuffle 2 (enum (diffIds allClassIds dlAll)))
            req).downloaded).length
        numDl := ((attempt_to_download fetch
          (enumOrd shuf shuffle 2 (enum (diffIds allClassIds dlAll)))
            req).downloaded).length
        att := (attempt_to_download fetch
          (enumOrd shuf shuffle 2 (enum (diffIds allClassIds dlAll)))
            req).att } := by
  simp [tier3, hg]

lemma tier4_guard_true (hg : pyGuard req = true) :
    tier4 enum shuf shuffle fetch anyClassIds dlAny sel req =
      { sel := dictUpdate sel (attempt_to_download fetch
          (enumOrd shuf shuffle 3 (enum (diffIds anyClassIds dlAny)))
            req).downloaded
        req := req
        numDl := ((attempt_to_download fetch
          (enumOrd shuf shuffle 3 (enum (diffIds anyClassIds dlAny)))
            req).downloaded).length
        att := (attempt_to_download fetch
          (enumOrd shuf shuffle 3 (enum (diffIds anyClassIds dlAny)))
            req).att } := by
  simp [tier4, hg]

end TierLemmas

/-! ### Budget lemmas: each tier consumes at most the remaining cap -/

lemma tier1_budget (enum : List Nat → List Nat)
    (shuf : Nat → List Nat → List Nat) (shuffle : Bool)
    (allClassIds prevIds : List Nat) {c : Int} (h0 : 0 ≤ c) :
    ∃ k : Nat, (k : Int) ≤ c ∧
      (tier1 enum shuf shuffle allClassIds prevIds (some c)).sel.length ≤ k ∧
      (tier1 enum shuf shuffle allClassIds prevIds (some c)).req =
        some (c - k) := by
  have hle := pySlice_length_le
    (tier1 enum shuf shuffle allClassIds prevIds (some c)).cand h0
  refine ⟨(pySlice (tier1 enum shuf shuffle allClassIds prevIds
    (some c)).cand (some c)).length, by omega, ?_, ?_⟩
  · rw [tier1_sel_eq]
    simpa using dictUpdate_length_le [] _
  · rw [tier1_req_eq]
    exact pyDecr_eq_sub _ h0 (by omega)

lemma tier2_budget (enum : List Nat → List Nat)
    (shuf : Nat → List Nat → List Nat) (shuffle : Bool)
    (anyClassIds prevIds sel : List Nat) {r : Int} (h0 : 0 ≤ r) :
    ∃ k : Nat, (k : Int) ≤ r ∧
      (tier2 enum shuf shuffle anyClassIds prevIds sel
        (some r)).sel.length ≤ sel.length + k ∧
      (tier2 enum shuf shuffle anyClassIds prevIds sel (some r)).req =
        some (r - k) := by
  by_cases hr : r = 0
  · subst hr
    rw [tier2_guard_false (by simp [pyGuard])]
    exact ⟨0, by simp, by simp, by simp⟩
  · have hg : pyGuard (some r) = true := by simp [pyGuard, hr]
    rw [tier2_guard_true hg]
    have hle := pySlice_length_le
      (enumOrd shuf shuffle 1 (enum (interIds anyClassIds prevIds))) h0
    exact ⟨(pySlice (enumOrd shuf shuffle 1
        (enum (interIds anyClassIds prevIds))) (some r)).length,
      by omega, dictUpdate_length_le sel _, pyDecr_of_ne_zero _ hr⟩

lemma tier3_budget (enum : List Nat → List Nat)
    (shuf : Nat → List Nat → List Nat) (shuffle : Bool) (fetch : Nat → Bool)
    (allClassIds dlAll sel : List Nat) {r : Int} (h0 : 0 ≤ r) :
    ∃ k : Nat, (k : Int) ≤ r ∧
      (tier3 enum shuf shuffle fetch allClassIds dlAll sel
        (some r)).sel.length ≤ sel.length + k ∧
      (tier3 enum shuf shuffle fetch allClassIds dlAll sel (some r)).req =
        some (r - k) ∧
      (tier3 enum shuf shuffle fetch allClassIds dlAll sel (some r)).numDl =
        k := by
  by_cases hr : r = 0
  · subst hr
    rw [tier3_guard_false (by simp [pyGuard])]
    exact ⟨0, by simp, by simp, by simp, rfl⟩
  · have hg : pyGuard (some r) = true := by simp [pyGuard, hr]
    rw [tier3_guard_true hg]
    have hlt : ((List.nil (α := Nat)).length : Int) < r := by simp; omega
    have hle : ((attempt_to_download fetch
        (enumOrd shuf shuffle 2 (enum (diffIds allClassIds dlAll)))
          (some r)).downloaded).length ≤ r.toNat :=
      attemptLoop_length_le fetch
        (enumOrd shuf shuffle 2 (enum (diffIds allClassIds dlAll))) [] [] hlt
    exact ⟨((attempt_to_download fetch
        (enumOrd shuf shuffle 2 (enum (diffIds allClassIds dlAll)))
          (some r)).downloaded).length,
      by omega, dictUpdate_length_le sel _, pyDecr_of_ne_zero _ hr, rfl⟩

lemma tier4_budget (enum : List Nat → List Nat)
    (shuf : Nat → List Nat → List Nat) (shuffle : Bool) (fetch : Nat → Bool)
    (anyClassIds dlAny sel : List Nat) {r : Int} (h0 : 0 ≤ r) :
    ∃ k : Nat, (k : Int) ≤ r ∧
      (tier4 enum shuf shuffle fetch anyClassIds dlAny sel
        (some r)).sel.length ≤ sel.length + k := by
  by_cases hr : r = 0
  · subst hr
    rw [tier4_guard_false (by simp [pyGuard])]
    exact ⟨0, by simp, by simp⟩
  · have hg : pyGuard (some r) = true := by simp [pyGuard, hr]
    rw [tier4_guard_true hg]
    have hlt : ((List.nil (α := Nat)).length : Int) < r := by simp; omega
    have hle : ((attempt_to_download fetch
        (enumOrd shuf shuffle 3 (enum (diffIds anyClassIds dlAny)))
          (some r)).downloaded).length ≤ r.toNat :=
      attemptLoop_length_le fetch
        (enumOrd shuf shuffle 3 (enum (diffIds anyClassIds dlAny))) [] [] hlt
    exact ⟨((attempt_to_download fetch
        (enumOrd shuf shuffle 3 (enum (diffIds anyClassIds dlAny)))
          (some r)).downloaded).length,
      by omega, dictUpdate_length_le sel _⟩

/-- The activitynet planner respects every non-negative cap. -/
lemma planner_cap_le (enum : List Nat → List Nat)
    (shuf : Nat → List Nat → List Nat) (fetch : Nat → Bool)
    (allClassIds anyClassIds prevIds : List Nat) (shuffle : Bool)
    {c : Int} (h0 : 0 ≤ c) :
    ((downloaded_necessary_samples enum shuf fetch allClassIds anyClassIds
      prevIds (some c) shuffle).selected).length ≤ c.toNat := by
  obtain ⟨k1, hk1, hl1, hr1⟩ :=
    tier1_budget enum shuf shuffle allClassIds prevIds h0
  have h1 : (0 : Int) ≤ c - k1 := by omega
  have hp2 : planT2 enum shuf shuffle allClassIds anyClassIds prevIds
      (some c) =
      tier2 enum shuf shuffle anyClassIds prevIds
        (tier1 enum shuf shuffle allClassIds prevIds (some c)).sel
        (some (c - k1)) := by
    unfold planT2
    rw [hr1]
  obtain ⟨k2, hk2, hl2, hr2⟩ :=
    tier2_budget enum shuf shuffle anyClassIds prevIds
      (tier1 enum shuf shuffle allClassIds prevIds (some c)).sel h1
  have h2 : (0 : Int) ≤ c - k1 - k2 := by omega
  have hp3 : planT3 enum shuf shuffle fetch allClassIds anyClassIds prevIds
      (some c) =
      tier3 enum shuf shuffle fetch allClassIds
        (tier1 enum shuf shuffle allClassIds prevIds (some c)).cand
        (tier2 enum shuf shuffle anyClassIds prevIds
          (tier1 enum shuf shuffle allClassIds prevIds (some c)).sel
          (some (c - k1))).sel
        (some (c - k1 - k2)) := by
    unfold planT3
    rw [hp2, hr2]
  obtain ⟨k3, hk3, hl3, hr3, hn3⟩ :=
    tier3_budget enum shuf shuffle fetch allClassIds
      (tier1 enum shuf shuffle allClassIds prevIds (some c)).cand
      (tier2 enum shuf shuffle anyClassIds prevIds
        (tier1 enum shuf shuffle allClassIds prevIds (some c)).sel
        (some (c - k1))).sel h2
  have h3 : (0 : Int) ≤ c - k1 - k2 - k3 := by omega
  have hp4 : planT4 enum shuf shuffle fetch allClassIds anyClassIds prevIds
      (some c) =
      tier4 enum shuf shuffle fetch anyClassIds
        (tier2 enum shuf shuffle anyClassIds prevIds
          (tier1 enum shuf shuffle allClassIds prevIds (some c)).sel
          (some (c - k1))).cand
        (tier3 enum shuf shuffle fetch allClassIds
          (tier1 enum shuf shuffle allClassIds prevIds (some c)).cand
          (tier2 enum shuf shuffle anyClassIds prevIds
            (tier1 enum shuf shuffle allClassIds prevIds (some c)).sel
            (some (c - k1))).sel
          (some (c - k1 - k2))).sel
        (some (c - k1 - k2 - k3)) := by
    unfold planT4
    rw [hp3, hr3, hp2]
  obtain ⟨k4, hk4, hl4⟩ :=
    tier4_budget enum shuf shuffle fetch anyClassIds
      (tier2 enum shuf shuffle anyClassIds prevIds
        (tier1 enum shuf shuffle allClassIds prevIds (some c)).sel
        (some (c - k1))).cand
      (tier3 enum shuf shuffle fetch allClassIds
        (tier1 enum shuf shuffle allClassIds prevIds (some c)).cand
        (tier2 enum shuf shuffle anyClassIds prevIds
          (tier1 enum shuf shuffle allClassIds prevIds (some c)).sel
          (some (c - k1))).sel
        (some (c - k1 - k2))).sel h3
  have hgoal : (downloaded_necessary_samples enum shuf fetch allClassIds
      anyClassIds prevIds (some c) shuffle).selected =
      (planT4 enum shuf shuffle fetch allClassIds anyClassIds prevIds
        (some c)).sel := rfl
  rw [hgoal, hp4]
  omega

/-- The openimages truncation respects every strictly positive cap. -/
lemma openimages_cap_le (shufO : List Nat → List Nat) (validIds : List Nat)
    {m : Int} (hm : 0 < m) (r : List Nat)
    (h : load_open_images_split_select shufO validIds (some m) =
      Except.ok r) : r.length ≤ m.toNat := by
  have ht : pyTruthy (some m) = true := by
    simp only [pyTruthy, decide_eq_true_eq]
    omega
  simp only [load_open_images_split_select, ht, if_true] at h
  by_cases he : (pySlice (shufO validIds) (some m)).isEmpty
  · simp [he] at h
  · simp only [he, Bool.false_eq_true, if_false, Except.ok.injEq] at h
    rw [← h]
    exact pySlice_length_le _ (le_of_lt hm)

/-! ### Negative-cap lemmas: the source never validates `max_samples` -/

lemma tier2_req_neg (enum : List Nat → List Nat)
    (shuf : Nat → List Nat → List Nat) (shuffle : Bool)
    (anyClassIds prevIds sel : List Nat) {r : Int} (hr : r < 0) :
    ∃ r2 : Int, r2 < 0 ∧
      (tier2 enum shuf shuffle anyClassIds prevIds sel (some r)).req =
        some r2 := by
  have hg : pyGuard (some r) = true := by
    simp only [pyGuard, decide_eq_true_eq]
    omega
  rw [tier2_guard_true hg]
  refine ⟨r - (pySlice (enumOrd shuf shuffle 1
    (enum (interIds anyClassIds prevIds))) (some r)).length, by omega, ?_⟩
  exact pyDecr_of_ne_zero _ (by omega)

lemma tier3_neg (enum : List Nat → List Nat)
    (shuf : Nat → List Nat → List Nat) (shuffle : Bool) (fetch : Nat → Bool)
    (allClassIds dlAll sel : List Nat) {r : Int} (hr : r < 0) :
    ∃ r3 : Int, r3 < 0 ∧
      (tier3 enum shuf shuffle fetch allClassIds dlAll sel (some r)).req =
        some r3 ∧
      (tier3 enum shuf shuffle fetch allClassIds dlAll sel (some r)).numDl ≤
        1 := by
  have hg : pyGuard (some r) = true := by
    simp only [pyGuard, decide_eq_true_eq]
    omega
  rw [tier3_guard_true hg]
  have hle : ((attempt_to_download fetch
      (enumOrd shuf shuffle 2 (enum (diffIds allClassIds dlAll)))
        (some r)).downloaded).length ≤ 1 :=
    attemptLoop_stop_succ fetch
      (enumOrd shuf shuffle 2 (enum (diffIds allClassIds dlAll))) [] []
      (by simp; omega)
  refine ⟨r - ((attempt_to_download fetch
    (enumOrd shuf shuffle 2 (enum (diffIds allClassIds dlAll)))
      (some r)).downloaded).length, by omega, ?_, hle⟩
  exact pyDecr_of_ne_zero _ (by omega)

lemma tier4_neg (enum : List Nat → List Nat)
    (shuf : Nat → List Nat → List Nat) (shuffle : Bool) (fetch : Nat → Bool)
    (anyClassIds dlAny sel : List Nat) {r : Int} (hr : r < 0) :
    (tier4 enum shuf shuffle fetch anyClassIds dlAny sel (some r)).numDl ≤
      1 := by
  have hg : pyGuard (some r) = true := by
    simp only [pyGuard, decide_eq_true_eq]
    omega
  rw [tier4_guard_true hg]
  exact attemptLoop_stop_succ fetch
    (enumOrd shuf shuffle 3 (enum (diffIds anyClassIds dlAny))) [] []
    (by simp; omega)

/-- With a negative cap the planner still runs, and each fetch tier stops
right after its first successful download (`len(downloaded) >= num_samples`
holds immediately for a negative bound), so at most two new downloads
happen. -/
lemma planner_neg_cap (enum : List Nat → List Nat)
    (shuf : Nat → List Nat → List Nat) (fetch : Nat → Bool)
    (allClassIds anyClassIds prevIds : List Nat) (shuffle : Bool)
    {c : Int} (hc : c < 0) :
    (downloaded_necessary_samples enum shuf fetch allClassIds anyClassIds
      prevIds (some c) shuffle).numDownloaded ≤ 2 := by
  have hr1 : (tier1 enum shuf shuffle allClassIds prevIds (some c)).req =
      some (c - (pySlice (tier1 enum shuf shuffle allClassIds prevIds
        (some c)).cand (some c)).length) := by
    rw [tier1_req_eq]
    exact pyDecr_of_ne_zero _ (by omega)
  have hp2 : planT2 enum shuf shuffle allClassIds anyClassIds prevIds
      (some c) =
      tier2 enum shuf shuffle anyClassIds prevIds
        (tier1 enum shuf shuffle allClassIds prevIds (some c)).sel
        (some (c - (pySlice (tier1 enum shuf shuffle allClassIds prevIds
          (some c)).cand (some c)).length)) := by
    unfold planT2
    rw [hr1]
  obtain ⟨r2, hr2neg, hr2⟩ :=
    tier2_req_neg enum shuf shuffle anyClassIds prevIds
      (tier1 enum shuf shuffle allClassIds prevIds (some c)).sel
      (r := c - (pySlice (tier1 enum shuf shuffle allClassIds prevIds
        (some c)).cand (some c)).length) (by omega)
  have hp3 : planT3 enum shuf shuffle fetch allClassIds anyClassIds prevIds
      (some c) =
      tier3 enum shuf shuffle fetch allClassIds
        (tier1 enum shuf shuffle allClassIds prevIds (some c)).cand
        (tier2 enum shuf shuffle anyClassIds prevIds
          (tier1 enum shuf shuffle allClassIds prevIds (some c)).sel
          (some (c - (pySlice (tier1 enum shuf shuffle allClassIds prevIds
            (some c)).cand (some c)).length))).sel
        (some r2) := by
    unfold planT3
    rw [hp2, hr2]
  obtain ⟨r3, hr3neg, hr3, hn3⟩ :=
    tier3_neg enum shuf shuffle fetch allClassIds
      (tier1 enum shuf shuffle allClassIds prevIds (some c)).cand
      (tier2 enum shuf shuffle anyClassIds prevIds
        (tier1 enum shuf shuffle allClassIds prevIds (some c)).sel
        (some (c - (pySlice (tier1 enum shuf shuffle allClassIds prevIds
          (some c)).cand (some c)).length))).sel hr2neg
  have hp4 : planT4 enum shuf shuffle fetch allClassIds anyClassIds prevIds
      (some c) =
      tier4 enum shuf shuffle fetch anyClassIds
        (tier2 enum shuf shuffle anyClassIds prevIds
          (tier1 enum shuf shuffle allClassIds prevIds (some c)).sel
          (some (c - (pySlice (tier1 enum shuf shuffle allClassIds prevIds
            (some c)).cand (some c)).length))).cand
        (tier3 enum shuf shuffle fetch allClassIds
          (tier1 enum shuf shuffle allClassIds prevIds (some c)).cand
          (tier2 enum shuf shuffle anyClassIds prevIds
            (tier1 enum shuf shuffle allClassIds prevIds (some c)).sel
            (some (c - (pySlice (tier1 enum shuf shuffle allClassIds prevIds
              (some c)).cand (some c)).length))).sel
          (some r2)).sel
        (some r3) := by
    unfold planT4
    rw [hp3, hr3, hp2]
  have hn4 := tier4_neg enum shuf shuffle fetch anyClassIds
    (tier2 enum shuf shuffle anyClassIds prevIds
      (tier1 enum shuf shuffle allClassIds prevIds (some c)).sel
      (some (c - (pySlice (tier1 enum shuf shuffle allClassIds prevIds
        (some c)).cand (some c)).length))).cand
    (tier3 enum shuf shuffle fetch allClassIds
      (tier1 enum shuf shuffle allClassIds prevIds (some c)).cand
      (tier2 enum shuf shuffle anyClassIds prevIds
        (tier1 enum shuf shuffle allClassIds prevIds (some c)).sel
        (some (c - (pySlice (tier1 enum shuf shuffle allClassIds prevIds
          (some c)).cand (some c)).length))).sel
      (some r2)).sel hr3neg
  have hgoal : (downloaded_necessary_samples enum shuf fetch allClassIds
      anyClassIds prevIds (some c) shuffle).numDownloaded =
      (planT3 enum shuf shuffle fetch allClassIds anyClassIds prevIds
        (some c)).numDl +
      (planT4 enum shuf shuffle fetch allClassIds anyClassIds prevIds
        (some c)).numDl := rfl
  rw [hgoal, hp3, hp4]
  omega

/-! ### Concrete oracles and further helpers -/

lemma validEnum_dedup : ValidEnum (fun xs => xs.dedup) :=
  fun xs => ⟨List.nodup_dedup xs, fun _ => List.mem_dedup⟩

lemma validEnum_dedup_reverse : ValidEnum (fun xs => xs.dedup.reverse) :=
  fun xs => ⟨by simpa using List.nodup_dedup xs, fun a => by
    simp [List.mem_dedup]⟩

lemma validShuf_id : ValidShuf (fun _ l => l) :=
  fun _ xs => List.Perm.refl xs

lemma length_eq_of_nodup_mem_iff {l1 l2 : List Nat} (h1 : l1.Nodup)
    (h2 : l2.Nodup) (h : ∀ a, a ∈ l1 ↔ a ∈ l2) : l1.length = l2.length := by
  have s12 : l1.Subperm l2 :=
    List.subperm_of_subset h1 (fun a ha => (h a).mp ha)
  have s21 : l2.Subperm l1 :=
    List.subperm_of_subset h2 (fun a ha => (h a).mpr ha)
  exact Nat.le_antisymm s12.length_le s21.length_le

section MoreTierLemmas

variable {enum : List Nat → List Nat} {shuf : Nat → List Nat → List Nat}
variable {fetch : Nat → Bool} {shuffle : Bool}
variable {allClassIds anyClassIds prevIds sel : List Nat}
variable {req maxSamples : Option Int}

lemma tier1_cand_length (he : ValidEnum enum) (hs : ValidShuf shuf) :
    (tier1 enum shuf shuffle allClassIds prevIds maxSamples).cand.length =
      (interIds allClassIds prevIds).dedup.length :=
  length_eq_of_nodup_mem_iff (tier1_cand_nodup he hs) (List.nodup_dedup _)
    (fun a => by rw [tier1_cand_mem he hs a, List.mem_dedup, mem_interIds])

lemma tier2_cand_mem_iff (he : ValidEnum enum) (hs : ValidShuf shuf)
    (hg : pyGuard req = true) (a : Nat) :
    a ∈ (tier2 enum shuf shuffle anyClassIds prevIds sel req).cand ↔
      a ∈ anyClassIds ∧ a ∈ prevIds := by
  rw [tier2_guard_true hg]
  show a ∈ enumOrd shuf shuffle 1 (enum (interIds anyClassIds prevIds)) ↔ _
  rw [(candList_spec he hs shuffle 1 (interIds anyClassIds prevIds)).2 a]
  exact mem_interIds

end MoreTierLemmas

/-- When tier 1 already exhausts the budget, the remaining tiers are all
skipped: tier 4 attempts nothing. -/
lemma planT4_att_nil_of_guard_false (enum : List Nat → List Nat)
    (shuf : Nat → List Nat → List Nat) (shuffle : Bool) (fetch : Nat → Bool)
    (allClassIds anyClassIds prevIds : List Nat) (maxSamples : Option Int)
    (hg : pyGuard (tier1 enum shuf shuffle allClassIds prevIds
      maxSamples).req = false) :
    (planT4 enum shuf shuffle fetch allClassIds anyClassIds prevIds
      maxSamples).att = [] := by
  have h0 : (tier1 enum shuf shuffle allClassIds prevIds maxSamples).req =
      some 0 := (pyGuard_false_iff _).mp hg
  have hpg : pyGuard (some (0 : Int)) = false := by simp [pyGuard]
  have hp2 : planT2 enum shuf shuffle allClassIds anyClassIds prevIds
      maxSamples =
      ⟨(tier1 enum shuf shuffle allClassIds prevIds maxSamples).sel,
        some 0, []⟩ := by
    unfold planT2
    rw [h0, tier2_guard_false hpg]
  have hp3 : planT3 enum shuf shuffle fetch allClassIds anyClassIds prevIds
      maxSamples =
      ⟨(tier1 enum shuf shuffle allClassIds prevIds maxSamples).sel,
        some 0, 0, []⟩ := by
    unfold planT3
    rw [hp2]
    exact tier3_guard_false hpg
  unfold planT4
  rw [hp3]
  exact congrArg FetchOut.att (tier4_guard_false hpg)

/-! ### Claim C1 -/

/-- Claim C1 counterexample: in the openimages loader a given cap of `0` is
falsy (`if max_samples:`), so the truncation block is skipped entirely and
every valid id is selected — here two records end up in the plan although the
given cap is `0`. -/
theorem claim_C1_counterexample :
    load_open_images_split_select (fun l => l) [1, 2] (some 0) =
        Except.ok [1, 2] ∧
      ¬ (([1, 2] : List Nat).length ≤ (0 : Int).toNat) :=
  ⟨rfl, by decide⟩

/-- Claim C1 (amended): the activitynet planner respects every non-negative
cap across all four tiers, and the openimages truncation respects every
strictly positive cap; a cap of `0` disables the openimages truncation, and
negative caps are not validated (claim C2). -/
theorem claim_C1_cap_respected :
    (∀ (enum : List Nat → List Nat) (shuf : Nat → List Nat → List Nat)
      (fetch : Nat → Bool) (allClassIds anyClassIds prevIds : List Nat)
      (shuffle : Bool) (c : Int), 0 ≤ c →
      ((downloaded_necessary_samples enum shuf fetch allClassIds anyClassIds
        prevIds (some c) shuffle).selected).length ≤ c.toNat) ∧
    (∀ (shufO : List Nat → List Nat) (validIds : List Nat) (m : Int)
      (r : List Nat), 0 < m →
      load_open_images_split_select shufO validIds (some m) = Except.ok r →
      r.length ≤ m.toNat) :=
  ⟨fun e s f all any prev sh _c h0 => planner_cap_le e s f all any prev sh h0,
   fun sO v _m r hm h => openimages_cap_le sO v hm r h⟩

theorem claim_C1_witness :
    ((0 : Int) ≤ 2 ∧
      ((downloaded_necessary_samples (fun xs => xs.dedup) (fun _ l => l)
        (fun _ => true) [1, 2, 3] [4] [1, 2] (some 2)
          false).selected).length ≤ (2 : Int).toNat) ∧
    ((0 : Int) < 1 ∧
      (load_open_images_split_select (fun l => l) [7] (some 1) =
          Except.ok [7] →
        ([7] : List Nat).length ≤ (1 : Int).toNat)) :=
  ⟨⟨by decide, claim_C1_cap_respected.1 (fun xs => xs.dedup) (fun _ l => l)
      (fun _ => true) [1, 2, 3] [4] [1, 2] false 2 (by decide)⟩,
   ⟨by decide, fun h => claim_C1_cap_respected.2 (fun l => l) [7] 1 [7]
      (by decide) h⟩⟩

/-! ### Claim C2 -/

/-- Claim C2 counterexample: with cap `-1` the planner raises nothing and
produces a full plan: tier 1 drops only the last intersection element
(the Python slice `[:-1]`), and a fetch IS attempted and succeeds in tier 3,
contradicting `no records selected, no fetch attempted`. -/
theorem claim_C2_counterexample :
    downloaded_necessary_samples (fun xs => xs.dedup) (fun _ l => l)
        (fun _ => true) [1, 2, 3] [] [1, 2] (some (-1)) false =
      { selected := [1, 3], numDownloaded := 1, att := [3] } := by
  decide

/-- Claim C2 (amended): the source never validates `max_samples`; a negative
cap raises no error and the planner runs all four tiers, with Python slice
semantics in tiers 1-2 and, in each fetch tier, an early return right after
the first successful download (the stop test `len(downloaded) >= num_samples`
holds immediately for a negative bound), so at most two records are newly
downloaded. -/
theorem claim_C2_negative_cap_runs (enum : List Nat → List Nat)
    (shuf : Nat → List Nat → List Nat) (fetch : Nat → Bool)
    (allClassIds anyClassIds prevIds : List Nat) (shuffle : Bool)
    {c : Int} (hc : c < 0) :
    (downloaded_necessary_samples enum shuf fetch allClassIds anyClassIds
      prevIds (some c) shuffle).numDownloaded ≤ 2 :=
  planner_neg_cap enum shuf fetch allClassIds anyClassIds prevIds shuffle hc

theorem claim_C2_witness :
    (-1 : Int) < 0 ∧
      (downloaded_necessary_samples (fun xs => xs.dedup) (fun _ l => l)
        (fun _ => true) [1, 2, 3] [] [1, 2] (some (-1))
          false).numDownloaded ≤ 2 :=
  ⟨by decide, claim_C2_negative_cap_runs (fun xs => xs.dedup) (fun _ l => l)
    (fun _ => true) [1, 2, 3] [] [1, 2] false (by decide)⟩

/-! ### Claim C3 -/

/-- Claim C3: tier priority under a binding cap.  When the cap does not
exceed the number of distinct present full-match candidates, the plan is
exactly `cap` records, all of them present full-match records, no fetch is
ever attempted and nothing is newly downloaded. -/
theorem claim_C3_tier_priority (enum : List Nat → List Nat)
    (shuf : Nat → List Nat → List Nat) (fetch : Nat → Bool)
    (allClassIds anyClassIds prevIds : List Nat) (shuffle : Bool)
    (he : ValidEnum enum) (hs : ValidShuf shuf) {c : Int} (h0 : 0 ≤ c)
    (hc : c.toNat ≤ (interIds allClassIds prevIds).dedup.length) :
    ((downloaded_necessary_samples enum shuf fetch allClassIds anyClassIds
      prevIds (some c) shuffle).selected).length = c.toNat ∧
    (∀ a ∈ (downloaded_necessary_samples enum shuf fetch allClassIds
      anyClassIds prevIds (some c) shuffle).selected,
        a ∈ allClassIds ∧ a ∈ prevIds) ∧
    (downloaded_necessary_samples enum shuf fetch allClassIds anyClassIds
      prevIds (some c) shuffle).att = [] ∧
    (downloaded_necessary_samples enum shuf fetch allClassIds anyClassIds
      prevIds (some c) shuffle).numDownloaded = 0 := by
  have hcl : (tier1 enum shuf shuffle allClassIds prevIds
      (some c)).cand.length = (interIds allClassIds prevIds).dedup.length :=
    tier1_cand_length he hs
  have hk : (pySlice (tier1 enum shuf shuffle allClassIds prevIds
      (some c)).cand (some c)).length = c.toNat :=
    pySlice_length_eq _ h0 (by omega)
  have hadd : (pySlice (tier1 enum shuf shuffle allClassIds prevIds
      (some c)).cand (some c)).Nodup :=
    (tier1_cand_nodup he hs).sublist (pySlice_sublist _ _)
  have hsel1 : (tier1 enum shuf shuffle allClassIds prevIds (some c)).sel =
      pySlice (tier1 enum shuf shuffle allClassIds prevIds (some c)).cand
        (some c) := by
    rw [tier1_sel_eq]
    exact dictUpdate_nil_of_nodup hadd
  have hr1 : (tier1 enum shuf shuffle allClassIds prevIds (some c)).req =
      some 0 := by
    rw [tier1_req_eq, hk, pyDecr_eq_sub _ h0 (by omega)]
    congr 1
    omega
  have hpg : pyGuard (some (0 : Int)) = false := by simp [pyGuard]
  have hp2 : planT2 enum shuf shuffle allClassIds anyClassIds prevIds
      (some c) =
      ⟨(tier1 enum shuf shuffle allClassIds prevIds (some c)).sel,
        some 0, []⟩ := by
    unfold planT2
    rw [hr1, tier2_guard_false hpg]
  have hp3 : planT3 enum shuf shuffle fetch allClassIds anyClassIds prevIds
      (some c) =
      ⟨(tier1 enum shuf shuffle allClassIds prevIds (some c)).sel,
        some 0, 0, []⟩ := by
    unfold planT3
    rw [hp2]
    exact tier3_guard_false hpg
  have hp4 : planT4 enum shuf shuffle fetch allClassIds anyClassIds prevIds
      (some c) =
      ⟨(tier1 enum shuf shuffle allClassIds prevIds (some c)).sel,
        some 0, 0, []⟩ := by
    unfold planT4
    rw [hp3, hp2]
    exact tier4_guard_false hpg
  have hsel : (downloaded_necessary_samples enum shuf fetch allClassIds
      anyClassIds prevIds (some c) shuffle).selected =
      (tier1 enum shuf shuffle allClassIds prevIds (some c)).sel := by
    show (planT4 enum shuf shuffle fetch allClassIds anyClassIds prevIds
      (some c)).sel = _
    rw [hp4]
  refine ⟨?_, ?_, ?_, ?_⟩
  · rw [hsel, hsel1, hk]
  · intro a ha
    rw [hsel] at ha
    exact tier1_sel_mem he hs a ha
  · show (planT3 enum shuf shuffle fetch allClassIds anyClassIds prevIds
      (some c)).att ++ (planT4 enum shuf shuffle fetch allClassIds
        anyClassIds prevIds (some c)).att = []
    rw [hp3, hp4]
    rfl
  · show (planT3 enum shuf shuffle fetch allClassIds anyClassIds prevIds
      (some c)).numDl + (planT4 enum shuf shuffle fetch allClassIds
        anyClassIds prevIds (some c)).numDl = 0
    rw [hp3, hp4]
    rfl

theorem claim_C3_witness :
    ValidEnum (fun xs => xs.dedup) ∧ ValidShuf (fun _ l => l) ∧
    (0 : Int) ≤ 1 ∧
    (1 : Int).toNat ≤ (interIds [1, 2] [2, 1, 5]).dedup.length ∧
    (((downloaded_necessary_samples (fun xs => xs.dedup) (fun _ l => l)
        (fun _ => true) [1, 2] [9] [2, 1, 5] (some 1)
          false).selected).length = (1 : Int).toNat ∧
      (∀ a ∈ (downloaded_necessary_samples (fun xs => xs.dedup)
        (fun _ l => l) (fun _ => true) [1, 2] [9] [2, 1, 5] (some 1)
          false).selected, a ∈ [1, 2] ∧ a ∈ [2, 1, 5]) ∧
      (downloaded_necessary_samples (fun xs => xs.dedup) (fun _ l => l)
        (fun _ => true) [1, 2] [9] [2, 1, 5] (some 1) false).att = [] ∧
      (downloaded_necessary_samples (fun xs => xs.dedup) (fun _ l => l)
        (fun _ => true) [1, 2] [9] [2, 1, 5] (some 1)
          false).numDownloaded = 0) :=
  ⟨validEnum_dedup, validShuf_id, by decide, by decide,
    claim_C3_tier_priority (fun xs => xs.dedup) (fun _ l => l)
      (fun _ => true) [1, 2] [9] [2, 1, 5] false validEnum_dedup validShuf_id
      (by decide) (by decide)⟩

/-! ### Claim C4 -/

/-- Claim C4: across one planning call the fetch oracle is invoked at most
once per distinct candidate id and never on an already-present id (the two
presence tiers perform only membership tests; `full_matches` and
`partial_matches` are disjoint by the classifier contract). -/
theorem claim_C4_no_duplicate_fetch (enum : List Nat → List Nat)
    (shuf : Nat → List Nat → List Nat) (fetch : Nat → Bool)
    (allClassIds anyClassIds prevIds : List Nat) (maxSamples : Option Int)
    (shuffle : Bool) (he : ValidEnum enum) (hs : ValidShuf shuf)
    (hdisj : allClassIds.Disjoint anyClassIds) :
    ((downloaded_necessary_samples enum shuf fetch allClassIds anyClassIds
      prevIds maxSamples shuffle).att).Nodup ∧
    ∀ a ∈ (downloaded_necessary_samples enum shuf fetch allClassIds
      anyClassIds prevIds maxSamples shuffle).att, a ∉ prevIds := by
  have h3 : ((planT3 enum shuf shuffle fetch allClassIds anyClassIds prevIds
      maxSamples).att).Nodup ∧
      ∀ a ∈ (planT3 enum shuf shuffle fetch allClassIds anyClassIds prevIds
        maxSamples).att, a ∈ allClassIds ∧
          a ∉ (tier1 enum shuf shuffle allClassIds prevIds
            maxSamples).cand := by
    unfold planT3
    exact tier3_att_spec he hs
  have h4 : ((planT4 enum shuf shuffle fetch allClassIds anyClassIds prevIds
      maxSamples).att).Nodup ∧
      ∀ a ∈ (planT4 enum shuf shuffle fetch allClassIds anyClassIds prevIds
        maxSamples).att, a ∈ anyClassIds ∧
          a ∉ (planT2 enum shuf shuffle allClassIds anyClassIds prevIds
            maxSamples).cand := by
    unfold planT4
    exact tier4_att_spec he hs
  have h3prev : ∀ a ∈ (planT3 enum shuf shuffle fetch allClassIds anyClassIds
      prevIds maxSamples).att, a ∉ prevIds := by
    intro a ha hp
    exact (h3.2 a ha).2 ((tier1_cand_mem he hs a).mpr ⟨(h3.2 a ha).1, hp⟩)
  have h4prev : ∀ a ∈ (planT4 enum shuf shuffle fetch allClassIds anyClassIds
      prevIds maxSamples).att, a ∉ prevIds := by
    intro a ha hp
    by_cases hg : pyGuard (tier1 enum shuf shuffle allClassIds prevIds
        maxSamples).req = true
    · refine (h4.2 a ha).2 ?_
      exact (tier2_cand_mem_iff he hs hg a).mpr ⟨(h4.2 a ha).1, hp⟩
    · rw [planT4_att_nil_of_guard_false enum shuf shuffle fetch allClassIds
        anyClassIds prevIds maxSamples (by simpa using hg)] at ha
      simp at ha
  have hdisj34 : (planT3 enum shuf shuffle fetch allClassIds anyClassIds
      prevIds maxSamples).att.Disjoint
      (planT4 enum shuf shuffle fetch allClassIds anyClassIds prevIds
        maxSamples).att := by
    intro a ha3 ha4
    exact hdisj (h3.2 a ha3).1 (h4.2 a ha4).1
  constructor
  · show ((planT3 enum shuf shuffle fetch allClassIds anyClassIds prevIds
      maxSamples).att ++ (planT4 enum shuf shuffle fetch allClassIds
        anyClassIds prevIds maxSamples).att).Nodup
    exact List.nodup_append.mpr ⟨h3.1, h4.1, hdisj34⟩
  · intro a ha
    have ha2 : a ∈ (planT3 enum shuf shuffle fetch allClassIds anyClassIds
        prevIds maxSamples).att ++ (planT4 enum shuf shuffle fetch
          allClassIds anyClassIds prevIds maxSamples).att := ha
    rcases List.mem_append.mp ha2 with h | h
    · exact h3prev a h
    · exact h4prev a h

theorem claim_C4_witness :
    ValidEnum (fun xs => xs.dedup) ∧ ValidShuf (fun _ l => l) ∧
    ([1, 2] : List Nat).Disjoint [3] ∧
    (((downloaded_necessary_samples (fun xs => xs.dedup) (fun _ l => l)
        (fun _ => true) [1, 2] [3] [2] none false).att).Nodup ∧
      ∀ a ∈ (downloaded_necessary_samples (fun xs => xs.dedup)
        (fun _ l => l) (fun _ => true) [1, 2] [3] [2] none false).att,
          a ∉ [2]) :=
  ⟨validEnum_dedup, validShuf_id,
    by intro a ha hb; simp at ha hb; omega,
    claim_C4_no_duplicate_fetch (fun xs => xs.dedup) (fun _ l => l)
      (fun _ => true) [1, 2] [3] [2] none false validEnum_dedup validShuf_id
      (by intro a ha hb; simp at ha hb; omega)⟩

/-! ### Claim C5: the always-failing fetcher -/

lemma attempt_to_download_false (ids : List Nat) (ns : Option Int) :
    attempt_to_download (fun _ => false) ids ns = ⟨[], ids⟩ := by
  have h := attemptLoop_all_false (fun _ => false) ns ids [] []
    (fun _ _ => rfl)
  simpa [attempt_to_download] using h

section FetchFalse

variable {enum : List Nat → List Nat} {shuf : Nat → List Nat → List Nat}
variable {shuffle : Bool}
variable {allClassIds anyClassIds dlAll dlAny sel : List Nat}
variable {req : Option Int}

lemma tier3_fetch_false_sel :
    (tier3 enum shuf shuffle (fun _ => false) allClassIds dlAll sel
      req).sel = sel := by
  by_cases hg : pyGuard req = true
  · rw [tier3_guard_true hg]
    show dictUpdate sel (attempt_to_download (fun _ => false) _ req).downloaded
      = sel
    rw [attempt_to_download_false]
    rfl
  · rw [tier3_guard_false (by simpa using hg)]

lemma tier3_fetch_false_numDl :
    (tier3 enum shuf shuffle (fun _ => false) allClassIds dlAll sel
      req).numDl = 0 := by
  by_cases hg : pyGuard req = true
  · rw [tier3_guard_true hg]
    show ((attempt_to_download (fun _ => false) _ req).downloaded).length = 0
    rw [attempt_to_download_false]
    rfl
  · rw [tier3_guard_false (by simpa using hg)]

lemma tier3_fetch_false_req :
    (tier3 enum shuf shuffle (fun _ => false) allClassIds dlAll sel
      req).req = req := by
  by_cases hg : pyGuard req = true
  · rw [tier3_guard_true hg]
    show pyDecr req
      ((attempt_to_download (fun _ => false) _ req).downloaded).length = req
    rw [attempt_to_download_false]
    exact pyDecr_zero req
  · rw [tier3_guard_false (by simpa using hg)]

lemma tier4_fetch_false_sel :
    (tier4 enum shuf shuffle (fun _ => false) anyClassIds dlAny sel
      req).sel = sel := by
  by_cases hg : pyGuard req = true
  · rw [tier4_guard_true hg]
    show dictUpdate sel (attempt_to_download (fun _ => false) _ req).downloaded
      = sel
    rw [attempt_to_download_false]
    rfl
  · rw [tier4_guard_false (by simpa using hg)]

lemma tier4_fetch_false_numDl :
    (tier4 enum shuf shuffle (fun _ => false) anyClassIds dlAny sel
      req).numDl = 0 := by
  by_cases hg : pyGuard req = true
  · rw [tier4_guard_true hg]
    show ((attempt_to_download (fun _ => false) _ req).downloaded).length = 0
    rw [attempt_to_download_false]
    rfl
  · rw [tier4_guard_false (by simpa using hg)]

end FetchFalse

/-- Claim C5: if the fetcher fails on every attempted candidate, nothing is
newly downloaded, no error occurs (the planner is total by construction), and
the plan is exactly the tier-1/2 present selection, every selected id being
already present. -/
theorem claim_C5_fetch_failure_skip (enum : List Nat → List Nat)
    (shuf : Nat → List Nat → List Nat)
    (allClassIds anyClassIds prevIds : List Nat) (maxSamples : Option Int)
    (shuffle : Bool) (he : ValidEnum enum) (hs : ValidShuf shuf) :
    (downloaded_necessary_samples enum shuf (fun _ => false) allClassIds
      anyClassIds prevIds maxSamples shuffle).numDownloaded = 0 ∧
    (downloaded_necessary_samples enum shuf (fun _ => false) allClassIds
      anyClassIds prevIds maxSamples shuffle).selected =
      (planT2 enum shuf shuffle allClassIds anyClassIds prevIds
        maxSamples).sel ∧
    ∀ a ∈ (downloaded_necessary_samples enum shuf (fun _ => false)
      allClassIds anyClassIds prevIds maxSamples shuffle).selected,
        a ∈ prevIds := by
  have h3sel : (planT3 enum shuf shuffle (fun _ => false) allClassIds
      anyClassIds prevIds maxSamples).sel =
      (planT2 enum shuf shuffle allClassIds anyClassIds prevIds
        maxSamples).sel := by
    unfold planT3
    exact tier3_fetch_false_sel
  have h4sel : (planT4 enum shuf shuffle (fun _ => false) allClassIds
      anyClassIds prevIds maxSamples).sel =
      (planT3 enum shuf shuffle (fun _ => false) allClassIds anyClassIds
        prevIds maxSamples).sel := by
    unfold planT4
    exact tier4_fetch_false_sel
  have hsel : (downloaded_necessary_samples enum shuf (fun _ => false)
      allClassIds anyClassIds prevIds maxSamples shuffle).selected =
      (planT2 enum shuf shuffle allClassIds anyClassIds prevIds
        maxSamples).sel := by
    show (planT4 enum shuf shuffle (fun _ => false) allClassIds anyClassIds
      prevIds maxSamples).sel = _
    rw [h4sel, h3sel]
  refine ⟨?_, hsel, ?_⟩
  · show (planT3 enum shuf shuffle (fun _ => false) allClassIds anyClassIds
      prevIds maxSamples).numDl + (planT4 enum shuf shuffle (fun _ => false)
        allClassIds anyClassIds prevIds maxSamples).numDl = 0
    have h3 : (planT3 enum shuf shuffle (fun _ => false) allClassIds
        anyClassIds prevIds maxSamples).numDl = 0 := by
      unfold planT3
      exact tier3_fetch_false_numDl
    have h4 : (planT4 enum shuf shuffle (fun _ => false) allClassIds
        anyClassIds prevIds maxSamples).numDl = 0 := by
      unfold planT4
      exact tier4_fetch_false_numDl
    rw [h3, h4]
  · intro a ha
    rw [hsel] at ha
    have ha2 : a ∈ (tier2 enum shuf shuffle anyClassIds prevIds
        (tier1 enum shuf shuffle allClassIds prevIds maxSamples).sel
        (tier1 enum shuf shuffle allClassIds prevIds maxSamples).req).sel :=
      ha
    rcases tier2_sel_mem he hs a ha2 with h | h
    · exact (tier1_sel_mem he hs a h).2
    · exact h.2

theorem claim_C5_witness :
    ValidEnum (fun xs => xs.dedup) ∧ ValidShuf (fun _ l => l) ∧
    ((downloaded_necessary_samples (fun xs => xs.dedup) (fun _ l => l)
        (fun _ => false) [1, 2] [3, 4] [2, 3] none false).numDownloaded = 0 ∧
      (downloaded_necessary_samples (fun xs => xs.dedup) (fun _ l => l)
        (fun _ => false) [1, 2] [3, 4] [2, 3] none false).selected =
        (planT2 (fun xs => xs.dedup) (fun _ l => l) false [1, 2] [3, 4]
          [2, 3] none).sel ∧
      ∀ a ∈ (downloaded_necessary_samples (fun xs => xs.dedup)
        (fun _ l => l) (fun _ => false) [1, 2] [3, 4] [2, 3] none
          false).selected, a ∈ [2, 3]) :=
  ⟨validEnum_dedup, validShuf_id,
    claim_C5_fetch_failure_skip (fun xs => xs.dedup) (fun _ l => l)
      [1, 2] [3, 4] [2, 3] none false validEnum_dedup validShuf_id⟩

/-! ### Unbounded cap: every tier runs to exhaustion -/

lemma pySlice_none {α : Type} (l : List α) : pySlice l none = l := rfl

lemma attempt_to_download_none (fetch : Nat → Bool) (ids : List Nat) :
    attempt_to_download fetch ids none = ⟨ids.filter fetch, ids⟩ := by
  have h := attemptLoop_none_eq fetch ids [] []
  simpa [attempt_to_download] using h

lemma attempt_to_download_none_downloaded (fetch : Nat → Bool)
    (ids : List Nat) :
    (attempt_to_download fetch ids none).downloaded = ids.filter fetch := by
  rw [attempt_to_download_none]

lemma attempt_to_download_none_att (fetch : Nat → Bool) (ids : List Nat) :
    (attempt_to_download fetch ids none).att = ids := by
  rw [attempt_to_download_none]

section NoneLemmas

variable {enum : List Nat → List Nat} {shuf : Nat → List Nat → List Nat}
variable {fetch : Nat → Bool} {shuffle : Bool}
variable {allClassIds anyClassIds prevIds dlAll dlAny sel : List Nat}

lemma tier1_none_sel_mem (he : ValidEnum enum) (hs : ValidShuf shuf)
    (a : Nat) :
    a ∈ (tier1 enum shuf shuffle allClassIds prevIds none).sel ↔
      a ∈ allClassIds ∧ a ∈ prevIds := by
  rw [tier1_sel_eq, pySlice_none, mem_dictUpdate]
  simp only [List.not_mem_nil, false_or]
  exact tier1_cand_mem he hs a

lemma tier2_none_sel_mem (he : ValidEnum enum) (hs : ValidShuf shuf)
    (a : Nat) :
    a ∈ (tier2 enum shuf shuffle anyClassIds prevIds sel none).sel ↔
      a ∈ sel ∨ (a ∈ anyClassIds ∧ a ∈ prevIds) := by
  rw [tier2_guard_true (show pyGuard none = true from rfl)]
  show a ∈ dictUpdate sel (pySlice
    (enumOrd shuf shuffle 1 (enum (interIds anyClassIds prevIds))) none) ↔ _
  rw [pySlice_none, mem_dictUpdate,
    (candList_spec he hs shuffle 1 (interIds anyClassIds prevIds)).2 a,
    mem_interIds]

lemma tier3_none_sel_mem (he : ValidEnum enum) (hs : ValidShuf shuf)
    (a : Nat) :
    a ∈ (tier3 enum shuf shuffle fetch allClassIds dlAll sel none).sel ↔
      a ∈ sel ∨ (a ∈ allClassIds ∧ a ∉ dlAll ∧ fetch a = true) := by
  rw [tier3_guard_true (show pyGuard none = true from rfl)]
  show a ∈ dictUpdate sel ((attempt_to_download fetch
    (enumOrd shuf shuffle 2 (enum (diffIds allClassIds dlAll)))
      none).downloaded) ↔ _
  rw [attempt_to_download_none_downloaded, mem_dictUpdate, List.mem_filter,
    (candList_spec he hs shuffle 2 (diffIds allClassIds dlAll)).2 a,
    mem_diffIds]
  tauto

lemma tier3_none_att_mem (he : ValidEnum enum) (hs : ValidShuf shuf)
    (a : Nat) :
    a ∈ (tier3 enum shuf shuffle fetch allClassIds dlAll sel none).att ↔
      a ∈ allClassIds ∧ a ∉ dlAll := by
  rw [tier3_guard_true (show pyGuard none = true from rfl)]
  show a ∈ (attempt_to_download fetch
    (enumOrd shuf shuffle 2 (enum (diffIds allClassIds dlAll))) none).att ↔ _
  rw [attempt_to_download_none_att,
    (candList_spec he hs shuffle 2 (diffIds allClassIds dlAll)).2 a,
    mem_diffIds]

lemma tier4_none_sel_mem (he : ValidEnum enum) (hs : ValidShuf shuf)
    (a : Nat) :
    a ∈ (tier4 enum shuf shuffle fetch anyClassIds dlAny sel none).sel ↔
      a ∈ sel ∨ (a ∈ anyClassIds ∧ a ∉ dlAny ∧ fetch a = true) := by
  rw [tier4_guard_true (show pyGuard none = true from rfl)]
  show a ∈ dictUpdate sel ((attempt_to_download fetch
    (enumOrd shuf shuffle 3 (enum (diffIds anyClassIds dlAny)))
      none).downloaded) ↔ _
  rw [attempt_to_download_none_downloaded, mem_dictUpdate, List.mem_filter,
    (candList_spec he hs shuffle 3 (diffIds anyClassIds dlAny)).2 a,
    mem_diffIds]
  tauto

lemma tier4_none_att_mem (he : ValidEnum enum) (hs : ValidShuf shuf)
    (a : Nat) :
    a ∈ (tier4 enum shuf shuffle fetch anyClassIds dlAny sel none).att ↔
      a ∈ anyClassIds ∧ a ∉ dlAny := by
  rw [tier4_guard_true (show pyGuard none = true from rfl)]
  show a ∈ (attempt_to_download fetch
    (enumOrd shuf shuffle 3 (enum (diffIds anyClassIds dlAny))) none).att ↔ _
  rw [attempt_to_download_none_att,
    (candList_spec he hs shuffle 3 (diffIds anyClassIds dlAny)).2 a,
    mem_diffIds]

end NoneLemmas

lemma planT2_none_eq (enum : List Nat → List Nat)
    (shuf : Nat → List Nat → List Nat) (shuffle : Bool)
    (allClassIds anyClassIds prevIds : List Nat) :
    planT2 enum shuf shuffle allClassIds anyClassIds prevIds none =
      tier2 enum shuf shuffle anyClassIds prevIds
        (tier1 enum shuf shuffle allClassIds prevIds none).sel none := rfl

lemma planT3_none_eq (enum : List Nat → List Nat)
    (shuf : Nat → List Nat → List Nat) (shuffle : Bool) (fetch : Nat → Bool)
    (allClassIds anyClassIds prevIds : List Nat) :
    planT3 enum shuf shuffle fetch allClassIds anyClassIds prevIds none =
      tier3 enum shuf shuffle fetch allClassIds
        (tier1 enum shuf shuffle allClassIds prevIds none).cand
        (planT2 enum shuf shuffle allClassIds anyClassIds prevIds none).sel
        none := rfl

lemma planT4_none_eq (enum : List Nat → List Nat)
    (shuf : Nat → List Nat → List Nat) (shuffle : Bool) (fetch : Nat → Bool)
    (allClassIds anyClassIds prevIds : List Nat) :
    planT4 enum shuf shuffle fetch allClassIds anyClassIds prevIds none =
      tier4 enum shuf shuffle fetch anyClassIds
        (planT2 enum shuf shuffle allClassIds anyClassIds prevIds none).cand
        (planT3 enum shuf shuffle fetch allClassIds anyClassIds prevIds
          none).sel
        none := rfl

/-- Membership of the uncapped plan: exactly the present candidates plus the
absent candidates whose fetch succeeds, independently of the enumeration and
shuffle oracles. -/
lemma mem_selected_none (enum : List Nat → List Nat)
    (shuf : Nat → List Nat → List Nat) (fetch : Nat → Bool)
    (allClassIds anyClassIds prevIds : List Nat) (shuffle : Bool)
    (he : ValidEnum enum) (hs : ValidShuf shuf) (a : Nat) :
    a ∈ (downloaded_necessary_samples enum shuf fetch allClassIds anyClassIds
      prevIds none shuffle).selected ↔
      ((a ∈ allClassIds ∨ a ∈ anyClassIds) ∧ a ∈ prevIds) ∨
      ((a ∈ allClassIds ∨ a ∈ anyClassIds) ∧ a ∉ prevIds ∧
        fetch a = true) := by
  show a ∈ (planT4 enum shuf shuffle fetch allClassIds anyClassIds prevIds
    none).sel ↔ _
  rw [planT4_none_eq, tier4_none_sel_mem he hs a, planT3_none_eq,
    tier3_none_sel_mem he hs a, planT2_none_eq, tier2_none_sel_mem he hs a,
    tier1_none_sel_mem he hs a, tier2_cand_mem_iff he hs (show pyGuard none = true from rfl) a,
    tier1_cand_mem he hs a]
  tauto

/-! ### Claim C7 -/

/-- Claim C7: with `cap = None` every tier runs to exhaustion: the plan
contains exactly the present candidates plus the absent candidates whose
fetch succeeded, and a fetch is attempted exactly once for every absent
candidate (and only for absent candidates). -/
theorem claim_C7_unbounded_cap (enum : List Nat → List Nat)
    (shuf : Nat → List Nat → List Nat) (fetch : Nat → Bool)
    (allClassIds anyClassIds prevIds : List Nat) (shuffle : Bool)
    (he : ValidEnum enum) (hs : ValidShuf shuf)
    (hdisj : allClassIds.Disjoint anyClassIds) :
    (∀ a, a ∈ (downloaded_necessary_samples enum shuf fetch allClassIds
      anyClassIds prevIds none shuffle).selected ↔
        ((a ∈ allClassIds ∨ a ∈ anyClassIds) ∧ a ∈ prevIds) ∨
        ((a ∈ allClassIds ∨ a ∈ anyClassIds) ∧ a ∉ prevIds ∧
          fetch a = true)) ∧
    (∀ a, a ∈ (downloaded_necessary_samples enum shuf fetch allClassIds
      anyClassIds prevIds none shuffle).att ↔
        (a ∈ allClassIds ∨ a ∈ anyClassIds) ∧ a ∉ prevIds) ∧
    ((downloaded_necessary_samples enum shuf fetch allClassIds anyClassIds
      prevIds none shuffle).att).Nodup := by
  refine ⟨mem_selected_none enum shuf fetch allClassIds anyClassIds prevIds
    shuffle he hs, ?_, ?_⟩
  · intro a
    show a ∈ (planT3 enum shuf shuffle fetch allClassIds anyClassIds prevIds
      none).att ++ (planT4 enum shuf shuffle fetch allClassIds anyClassIds
        prevIds none).att ↔ _
    rw [List.mem_append, planT3_none_eq, planT4_none_eq,
      tier3_none_att_mem he hs a, tier4_none_att_mem he hs a,
      tier1_cand_mem he hs a, planT2_none_eq,
      tier2_cand_mem_iff he hs (show pyGuard none = true from rfl) a]
    tauto
  · show ((planT3 enum shuf shuffle fetch allClassIds anyClassIds prevIds
      none).att ++ (planT4 enum shuf shuffle fetch allClassIds anyClassIds
        prevIds none).att).Nodup
    refine List.nodup_append.mpr ⟨?_, ?_, ?_⟩
    · rw [planT3_none_eq]
      exact (tier3_att_spec he hs).1
    · rw [planT4_none_eq]
      exact (tier4_att_spec he hs).1
    · intro a h3 h4
      rw [planT3_none_eq] at h3
      rw [planT4_none_eq] at h4
      exact hdisj ((tier3_none_att_mem he hs a).mp h3).1
        ((tier4_none_att_mem he hs a).mp h4).1

theorem claim_C7_witness :
    ValidEnum (fun xs => xs.dedup) ∧ ValidShuf (fun _ l => l) ∧
    ([1, 2] : List Nat).Disjoint [3, 4] ∧
    ((∀ a, a ∈ (downloaded_necessary_samples (fun xs => xs.dedup)
        (fun _ l => l) (fun _ => true) [1, 2] [3, 4] [2, 3] none
          false).selected ↔
        ((a ∈ [1, 2] ∨ a ∈ [3, 4]) ∧ a ∈ [2, 3]) ∨
        ((a ∈ [1, 2] ∨ a ∈ [3, 4]) ∧ a ∉ [2, 3] ∧
          (fun _ : Nat => true) a = true)) ∧
      (∀ a, a ∈ (downloaded_necessary_samples (fun xs => xs.dedup)
        (fun _ l => l) (fun _ => true) [1, 2] [3, 4] [2, 3] none
          false).att ↔ (a ∈ [1, 2] ∨ a ∈ [3, 4]) ∧ a ∉ [2, 3]) ∧
      ((downloaded_necessary_samples (fun xs => xs.dedup) (fun _ l => l)
        (fun _ => true) [1, 2] [3, 4] [2, 3] none false).att).Nodup) :=
  ⟨validEnum_dedup, validShuf_id,
    by intro a ha hb; simp at ha hb; omega,
    claim_C7_unbounded_cap (fun xs => xs.dedup) (fun _ l => l)
      (fun _ => true) [1, 2] [3, 4] [2, 3] false validEnum_dedup validShuf_id
      (by intro a ha hb; simp at ha hb; omega)⟩

/-! ### Claim C6 -/

/-- Claim C6 counterexample: two valid Python-set enumerations (CPython
iterates a set in hash order, which the code passes through `list(set(...))`)
give, on identical inputs with `shuffle = False`, differently ordered
`selected_records`; in particular the tier order is not the insertion order
of the input mappings. -/
theorem claim_C6_counterexample :
    ValidEnum (fun xs => xs.dedup) ∧
    ValidEnum (fun xs => xs.dedup.reverse) ∧
    (downloaded_necessary_samples (fun xs => xs.dedup) (fun _ l => l)
      (fun _ => false) [1, 2] [] [1, 2] none false).selected = [1, 2] ∧
    (downloaded_necessary_samples (fun xs => xs.dedup.reverse) (fun _ l => l)
      (fun _ => false) [1, 2] [] [1, 2] none false).selected = [2, 1] :=
  ⟨validEnum_dedup, validEnum_dedup_reverse, by decide, by decide⟩

/-- Claim C6 (amended): the planner is a pure function of its inputs together
with the set-enumeration order and the shuffle permutations, so two calls in
one process with identical inputs and seed coincide; moreover, with
`cap = None` the membership of `selected_records` is deterministic across any
two valid enumeration/shuffle oracles (hash order and seed affect only the
ordering), while the ordering itself is oracle-dependent and in particular
not the insertion order of the input mappings. -/
theorem claim_C6_membership_deterministic (e1 : List Nat → List Nat)
    (s1 : Nat → List Nat → List Nat) (e2 : List Nat → List Nat)
    (s2 : Nat → List Nat → List Nat) (fetch : Nat → Bool)
    (allClassIds anyClassIds prevIds : List Nat) (sh1 sh2 : Bool)
    (he1 : ValidEnum e1) (hs1 : ValidShuf s1) (he2 : ValidEnum e2)
    (hs2 : ValidShuf s2) :
    ∀ a, a ∈ (downloaded_necessary_samples e1 s1 fetch allClassIds
      anyClassIds prevIds none sh1).selected ↔
      a ∈ (downloaded_necessary_samples e2 s2 fetch allClassIds anyClassIds
        prevIds none sh2).selected := by
  intro a
  rw [mem_selected_none e1 s1 fetch allClassIds anyClassIds prevIds sh1
    he1 hs1 a,
    mem_selected_none e2 s2 fetch allClassIds anyClassIds prevIds sh2
      he2 hs2 a]

theorem claim_C6_witness :
    ValidEnum (fun xs => xs.dedup) ∧ ValidShuf (fun _ l => l) ∧
    ValidEnum (fun xs => xs.dedup.reverse) ∧
    ∀ a, a ∈ (downloaded_necessary_samples (fun xs => xs.dedup)
      (fun _ l => l) (fun _ => false) [1, 2] [] [1, 2] none
        false).selected ↔
      a ∈ (downloaded_necessary_samples (fun xs => xs.dedup.reverse)
        (fun _ l => l) (fun _ => false) [1, 2] [] [1, 2] none
          false).selected :=
  ⟨validEnum_dedup, validShuf_id, validEnum_dedup_reverse,
    claim_C6_membership_deterministic (fun xs => xs.dedup) (fun _ l => l)
      (fun xs => xs.dedup.reverse) (fun _ l => l) (fun _ => false)
      [1, 2] [] [1, 2] false false validEnum_dedup validShuf_id
      validEnum_dedup_reverse validShuf_id⟩

/-! ### Claim C8: exhaustion and the empty candidate universe -/

lemma pySlice_nil {α : Type} (r : Option Int) :
    pySlice ([] : List α) r = [] := by
  cases r with
  | none => rfl
  | some n => by_cases h : 0 ≤ n <;> simp [pySlice, h]

lemma enum_nil_eq {enum : List Nat → List Nat} (he : ValidEnum enum)
    {xs : List Nat} (h : ∀ b, b ∉ xs) : enum xs = [] :=
  List.eq_nil_iff_forall_not_mem.mpr
    (fun b hb => h b (((he xs).2 b).mp hb))

lemma enumOrd_nil {shuf : Nat → List Nat → List Nat} (hs : ValidShuf shuf)
    (shuffle : Bool) (i : Nat) : enumOrd shuf shuffle i [] = [] :=
  (enumOrd_perm hs shuffle i []).eq_nil

section EmptyLemmas

variable {enum : List Nat → List Nat} {shuf : Nat → List Nat → List Nat}
variable {fetch : Nat → Bool} {shuffle : Bool}
variable {prevIds dlAll dlAny : List Nat}

lemma tier2_empty (he : ValidEnum enum) (hs : ValidShuf shuf)
    (sel : List Nat) (req : Option Int) :
    tier2 enum shuf shuffle [] prevIds sel req = ⟨sel, req, []⟩ := by
  by_cases hg : pyGuard req = true
  · rw [tier2_guard_true hg]
    have hc : enumOrd shuf shuffle 1 (enum (interIds [] prevIds)) = [] := by
      rw [enum_nil_eq he (fun b hb =>
        absurd (mem_interIds.mp hb).1 (List.not_mem_nil b))]
      exact enumOrd_nil hs shuffle 1
    rw [hc, pySlice_nil]
    show TierOut.mk sel (pyDecr req 0) [] = TierOut.mk sel req []
    rw [pyDecr_zero]
  · rw [tier2_guard_false (by simpa using hg)]

lemma tier3_empty (he : ValidEnum enum) (hs : ValidShuf shuf)
    (sel : List Nat) (req : Option Int) :
    tier3 enum shuf shuffle fetch [] dlAll sel req = ⟨sel, req, 0, []⟩ := by
  by_cases hg : pyGuard req = true
  · rw [tier3_guard_true hg]
    have hc : enumOrd shuf shuffle 2 (enum (diffIds [] dlAll)) = [] := by
      rw [enum_nil_eq he (fun b hb =>
        absurd (mem_diffIds.mp hb).1 (List.not_mem_nil b))]
      exact enumOrd_nil hs shuffle 2
    rw [hc]
    show FetchOut.mk sel (pyDecr req 0) 0 [] = FetchOut.mk sel req 0 []
    rw [pyDecr_zero]
  · rw [tier3_guard_false (by simpa using hg)]

lemma tier4_empty (he : ValidEnum enum) (hs : ValidShuf shuf)
    (sel : List Nat) (req : Option Int) :
    tier4 enum shuf shuffle fetch [] dlAny sel req = ⟨sel, req, 0, []⟩ := by
  by_cases hg : pyGuard req = true
  · rw [tier4_guard_true hg]
    have hc : enumOrd shuf shuffle 3 (enum (diffIds [] dlAny)) = [] := by
      rw [enum_nil_eq he (fun b hb =>
        absurd (mem_diffIds.mp hb).1 (List.not_mem_nil b))]
      exact enumOrd_nil hs shuffle 3
    rw [hc]
    rfl
  · rw [tier4_guard_false (by simpa using hg)]

end EmptyLemmas

/-- With an empty candidate universe the planner returns the empty plan (and
no error: the function is total). -/
lemma planner_empty_universe (enum : List Nat → List Nat)
    (shuf : Nat → List Nat → List Nat) (fetch : Nat → Bool)
    (prevIds : List Nat) (maxSamples : Option Int) (shuffle : Bool)
    (he : ValidEnum enum) (hs : ValidShuf shuf) :
    downloaded_necessary_samples enum shuf fetch [] [] prevIds maxSamples
      shuffle = ⟨[], 0, []⟩ := by
  have ht1sel : (tier1 enum shuf shuffle [] prevIds maxSamples).sel = [] := by
    rw [tier1_sel_eq]
    have hc : (tier1 enum shuf shuffle [] prevIds maxSamples).cand = [] := by
      show enumOrd shuf shuffle 0 (enum (interIds [] prevIds)) = []
      rw [enum_nil_eq he (fun b hb =>
        absurd (mem_interIds.mp hb).1 (List.not_mem_nil b))]
      exact enumOrd_nil hs shuffle 0
    rw [hc, pySlice_nil]
    rfl
  have hp2 : planT2 enum shuf shuffle [] [] prevIds maxSamples =
      ⟨[], (tier1 enum shuf shuffle [] prevIds maxSamples).req, []⟩ := by
    unfold planT2
    rw [ht1sel]
    exact tier2_empty he hs _ _
  have hp3 : planT3 enum shuf shuffle fetch [] [] prevIds maxSamples =
      ⟨[], (tier1 enum shuf shuffle [] prevIds maxSamples).req, 0, []⟩ := by
    unfold planT3
    rw [hp2]
    exact tier3_empty he hs _ _
  have hp4 : planT4 enum shuf shuffle fetch [] [] prevIds maxSamples =
      ⟨[], (tier1 enum shuf shuffle [] prevIds maxSamples).req, 0, []⟩ := by
    unfold planT4
    rw [hp2, hp3]
    exact tier4_empty he hs _ _
  have hrfl : downloaded_necessary_samples enum shuf fetch [] [] prevIds
      maxSamples shuffle =
      ⟨(planT4 enum shuf shuffle fetch [] [] prevIds maxSamples).sel,
        (planT3 enum shuf shuffle fetch [] [] prevIds maxSamples).numDl +
          (planT4 enum shuf shuffle fetch [] [] prevIds maxSamples).numDl,
        (planT3 enum shuf shuffle fetch [] [] prevIds maxSamples).att ++
          (planT4 enum shuf shuffle fetch [] [] prevIds maxSamples).att⟩ :=
    rfl
  rw [hrfl, hp3, hp4]
  rfl

lemma planner_sel_nodup (enum : List Nat → List Nat)
    (shuf : Nat → List Nat → List Nat) (fetch : Nat → Bool)
    (allClassIds anyClassIds prevIds : List Nat) (maxSamples : Option Int)
    (shuffle : Bool) :
    ((downloaded_necessary_samples enum shuf fetch allClassIds anyClassIds
      prevIds maxSamples shuffle).selected).Nodup := by
  show ((planT4 enum shuf shuffle fetch allClassIds anyClassIds prevIds
    maxSamples).sel).Nodup
  unfold planT4
  apply tier4_sel_nodup
  unfold planT3
  apply tier3_sel_nodup
  unfold planT2
  apply tier2_sel_nodup
  exact tier1_sel_nodup

lemma planner_sel_mem (enum : List Nat → List Nat)
    (shuf : Nat → List Nat → List Nat) (fetch : Nat → Bool)
    (allClassIds anyClassIds prevIds : List Nat) (maxSamples : Option Int)
    (shuffle : Bool) (he : ValidEnum enum) (hs : ValidShuf shuf) :
    ∀ a ∈ (downloaded_necessary_samples enum shuf fetch allClassIds
      anyClassIds prevIds maxSamples shuffle).selected,
      a ∈ allClassIds ∨ a ∈ anyClassIds := by
  intro a ha
  have ha4 : a ∈ (planT4 enum shuf shuffle fetch allClassIds anyClassIds
      prevIds maxSamples).sel := ha
  unfold planT4 at ha4
  rcases tier4_sel_mem he hs a ha4 with h | h
  · unfold planT3 at h
    rcases tier3_sel_mem he hs a h with h2 | h2
    · unfold planT2 at h2
      rcases tier2_sel_mem he hs a h2 with h3 | h3
      · exact Or.inl (tier1_sel_mem he hs a h3).1
      · exact Or.inr h3.1
    · exact Or.inl h2.1
  · exact Or.inr h.1

/-- Claim C8 counterexample: the openimages loader raises
`ValueError("No samples found")` on an empty candidate universe instead of
returning an empty plan. -/
theorem claim_C8_counterexample :
    load_open_images_split_select (fun l => l) [] none =
      Except.error "No samples found" := rfl

/-- Claim C8 (amended): for the activitynet planner, exhausting all tiers
before the cap is met is never an error: the plan is duplicate-free, contains
only candidate ids (hence at most the number of distinct candidates, fewer
than any larger cap), and the empty candidate universe yields the empty plan
with nothing fetched; the openimages loader, however, raises
`ValueError("No samples found")` when no valid ids remain. -/
theorem claim_C8_exhaustion_not_error (enum : List Nat → List Nat)
    (shuf : Nat → List Nat → List Nat) (fetch : Nat → Bool)
    (allClassIds anyClassIds prevIds : List Nat) (maxSamples : Option Int)
    (shuffle : Bool) (he : ValidEnum enum) (hs : ValidShuf shuf) :
    ((downloaded_necessary_samples enum shuf fetch allClassIds anyClassIds
      prevIds maxSamples shuffle).selected).Nodup ∧
    (∀ a ∈ (downloaded_necessary_samples enum shuf fetch allClassIds
      anyClassIds prevIds maxSamples shuffle).selected,
        a ∈ allClassIds ∨ a ∈ anyClassIds) ∧
    ((downloaded_necessary_samples enum shuf fetch allClassIds anyClassIds
      prevIds maxSamples shuffle).selected).length ≤
      ((allClassIds ++ anyClassIds).dedup).length ∧
    (allClassIds = [] → anyClassIds = [] →
      downloaded_necessary_samples enum shuf fetch allClassIds anyClassIds
        prevIds maxSamples shuffle = ⟨[], 0, []⟩) := by
  refine ⟨planner_sel_nodup enum shuf fetch allClassIds anyClassIds prevIds
    maxSamples shuffle, planner_sel_mem enum shuf fetch allClassIds
      anyClassIds prevIds maxSamples shuffle he hs, ?_, ?_⟩
  · have hsub : (downloaded_necessary_samples enum shuf fetch allClassIds
        anyClassIds prevIds maxSamples shuffle).selected ⊆
        (allClassIds ++ anyClassIds).dedup := by
      intro a ha
      rw [List.mem_dedup, List.mem_append]
      exact planner_sel_mem enum shuf fetch allClassIds anyClassIds prevIds
        maxSamples shuffle he hs a ha
    exact (List.subperm_of_subset (planner_sel_nodup enum shuf fetch
      allClassIds anyClassIds prevIds maxSamples shuffle) hsub).length_le
  · intro h1 h2
    subst h1
    subst h2
    exact planner_empty_universe enum shuf fetch prevIds maxSamples shuffle
      he hs

theorem claim_C8_witness :
    ValidEnum (fun xs => xs.dedup) ∧ ValidShuf (fun _ l => l) ∧
    (((downloaded_necessary_samples (fun xs => xs.dedup) (fun _ l => l)
        (fun _ => true) [] [] [5] (some 3) false).selected).Nodup ∧
      (∀ a ∈ (downloaded_necessary_samples (fun xs => xs.dedup)
        (fun _ l => l) (fun _ => true) [] [] [5] (some 3) false).selected,
          a ∈ ([] : List Nat) ∨ a ∈ ([] : List Nat)) ∧
      ((downloaded_necessary_samples (fun xs => xs.dedup) (fun _ l => l)
        (fun _ => true) [] [] [5] (some 3) false).selected).length ≤
        ((([] : List Nat) ++ ([] : List Nat)).dedup).length ∧
      (([] : List Nat) = [] → ([] : List Nat) = [] →
        downloaded_necessary_samples (fun xs => xs.dedup) (fun _ l => l)
          (fun _ => true) [] [] [5] (some 3) false = ⟨[], 0, []⟩)) :=
  ⟨validEnum_dedup, validShuf_id,
    claim_C8_exhaustion_not_error (fun xs => xs.dedup) (fun _ l => l)
      (fun _ => true) [] [] [5] (some 3) false validEnum_dedup validShuf_id⟩

/-! ### Claim C9: the membership classifier -/

lemma get_matching_samples_eq (database : List (Nat × SampleInfo))
    (classes : List Nat) (split : Nat) :
    get_matching_samples database classes split =
      (database.filter (fun e => decide (e.2.subset = split) &&
        !issubset classes e.2.labels && intersects classes e.2.labels),
       database.filter (fun e => decide (e.2.subset = split) &&
        issubset classes e.2.labels)) := by
  induction database with
  | nil => rfl
  | cons e rest ih =>
    simp only [get_matching_samples, ih, List.filter_cons]
    by_cases h1 : e.2.subset = split
    · by_cases h2 : issubset classes e.2.labels
      · simp [h1, h2]
      · by_cases h3 : intersects classes e.2.labels
        · simp [h1, h2, h3]
        · simp [h1, h2, h3]
    · simp [h1]

lemma assoc_key_inj {db : List (Nat × SampleInfo)}
    (h : (db.map Prod.fst).Nodup) {e1 e2 : Nat × SampleInfo}
    (h1 : e1 ∈ db) (h2 : e2 ∈ db) (hk : e1.1 = e2.1) : e1 = e2 := by
  induction db with
  | nil => simp at h1
  | cons d rest ih =>
    rw [List.map_cons, List.nodup_cons] at h
    rcases List.mem_cons.mp h1 with rfl | h1r
    · rcases List.mem_cons.mp h2 with rfl | h2r
      · rfl
      · have hm : e2.1 ∈ rest.map Prod.fst := List.mem_map_of_mem _ h2r
        rw [← hk] at hm
        exact absurd hm h.1
    · rcases List.mem_cons.mp h2 with rfl | h2r
      · have hm : e1.1 ∈ rest.map Prod.fst := List.mem_map_of_mem _ h1r
        rw [hk] at hm
        exact absurd hm h.1
      · exact ih h.2 h1r h2r

/-- Claim C9: classification by `_get_matching_samples` is exclusive with
full-match priority: a record of the requested split matching all filter
terms lands in `all_class_match` and never in `any_class_match`; one matching
at least one but not all terms lands in `any_class_match` and never in
`all_class_match`; no id appears in both outputs. -/
theorem claim_C9_classification_exclusive
    (database : List (Nat × SampleInfo)) (classes : List Nat) (split : Nat)
    (hnd : (database.map Prod.fst).Nodup) :
    (∀ e ∈ database, e.2.subset = split →
      issubset classes e.2.labels = true →
      e.1 ∈ (get_matching_samples database classes split).2.map Prod.fst ∧
      e.1 ∉ (get_matching_samples database classes split).1.map Prod.fst) ∧
    (∀ e ∈ database, e.2.subset = split →
      issubset classes e.2.labels = false →
      intersects classes e.2.labels = true →
      e.1 ∈ (get_matching_samples database classes split).1.map Prod.fst ∧
      e.1 ∉ (get_matching_samples database classes split).2.map Prod.fst) ∧
    (∀ i : Nat,
      ¬(i ∈ (get_matching_samples database classes split).1.map Prod.fst ∧
        i ∈ (get_matching_samples database classes split).2.map
          Prod.fst)) := by
  rw [get_matching_samples_eq]
  refine ⟨?_, ?_, ?_⟩
  · intro e he hsub hiss
    constructor
    · exact List.mem_map_of_mem _
        (List.mem_filter.mpr ⟨he, by simp [hsub, hiss]⟩)
    · intro hmem
      obtain ⟨e1, he1mem, he1k⟩ := List.mem_map.mp hmem
      obtain ⟨he1db, hp⟩ := List.mem_filter.mp he1mem
      have heq : e1 = e := assoc_key_inj hnd he1db he he1k
      rw [heq] at hp
      simp [hiss] at hp
  · intro e he hsub hiss hint
    constructor
    · exact List.mem_map_of_mem _
        (List.mem_filter.mpr ⟨he, by simp [hsub, hiss, hint]⟩)
    · intro hmem
      obtain ⟨e1, he1mem, he1k⟩ := List.mem_map.mp hmem
      obtain ⟨he1db, hp⟩ := List.mem_filter.mp he1mem
      have heq : e1 = e := assoc_key_inj hnd he1db he he1k
      rw [heq] at hp
      simp [hiss] at hp
  · intro i hi
    obtain ⟨hA, hB⟩ := hi
    obtain ⟨e1, he1mem, he1k⟩ := List.mem_map.mp hA
    obtain ⟨he1db, hp1⟩ := List.mem_filter.mp he1mem
    obtain ⟨e2, he2mem, he2k⟩ := List.mem_map.mp hB
    obtain ⟨he2db, hp2⟩ := List.mem_filter.mp he2mem
    have heq : e1 = e2 := assoc_key_inj hnd he1db he2db (by rw [he1k, he2k])
    rw [heq] at hp1
    simp only [Bool.and_eq_true] at hp1 hp2
    rw [hp2.2] at hp1
    simp at hp1

theorem claim_C9_witness :
    ((([(10, ⟨0, [1, 2, 3]⟩), (11, ⟨0, [2]⟩)] :
        List (Nat × SampleInfo)).map Prod.fst).Nodup ∧
      (10, (⟨0, [1, 2, 3]⟩ : SampleInfo)) ∈
        ([(10, ⟨0, [1, 2, 3]⟩), (11, ⟨0, [2]⟩)] :
          List (Nat × SampleInfo)) ∧
      issubset [1, 2] [1, 2, 3] = true) ∧
    (10 ∈ (get_matching_samples [(10, ⟨0, [1, 2, 3]⟩), (11, ⟨0, [2]⟩)]
        [1, 2] 0).2.map Prod.fst ∧
      10 ∉ (get_matching_samples [(10, ⟨0, [1, 2, 3]⟩), (11, ⟨0, [2]⟩)]
        [1, 2] 0).1.map Prod.fst) :=
  ⟨⟨by decide, by decide, by decide⟩,
    (claim_C9_classification_exclusive
      [(10, ⟨0, [1, 2, 3]⟩), (11, ⟨0, [2]⟩)] [1, 2] 0 (by decide)).1
      (10, ⟨0, [1, 2, 3]⟩) (by decide) (by decide) (by decide)⟩

/-! ### Claim C10: the presence oracle and partial downloads -/

lemma get_downloaded_sample_ids_eq (listing : List String) :
    get_downloaded_sample_ids listing =
      ((listing.filter (fun f => !((splitext f).2 == ".part"))).map
        (fun f => (splitext f).1),
       listing.filter (fun f => (splitext f).2 == ".part")) := by
  induction listing with
  | nil => rfl
  | cons f rest ih =>
    simp only [get_downloaded_sample_ids, ih, List.filter_cons]
    by_cases h : (splitext f).2 = ".part"
    · simp [h]
    · simp [h]

/-- Claim C10: a listed file with extension `.part` is moved to the removal
list and contributes no id; every returned present id is the stem of some
listed file whose extension is not `.part` (so each id corresponds to a fully
materialized file), and every non-`.part` file contributes its stem. -/
theorem claim_C10_partial_files_excluded (listing : List String) :
    (∀ f ∈ listing, (splitext f).2 = ".part" →
      f ∈ (get_downloaded_sample_ids listing).2) ∧
    (∀ i ∈ (get_downloaded_sample_ids listing).1,
      ∃ f ∈ listing, (splitext f).2 ≠ ".part" ∧ (splitext f).1 = i) ∧
    (∀ f ∈ listing, (splitext f).2 ≠ ".part" →
      (splitext f).1 ∈ (get_downloaded_sample_ids listing).1) := by
  rw [get_downloaded_sample_ids_eq]
  refine ⟨?_, ?_, ?_⟩
  · intro f hf h
    exact List.mem_filter.mpr ⟨hf, by simp [h]⟩
  · intro i hi
    obtain ⟨f, hfmem, hfi⟩ := List.mem_map.mp hi
    obtain ⟨hfdb, hp⟩ := List.mem_filter.mp hfmem
    exact ⟨f, hfdb, by simpa using hp, hfi⟩
  · intro f hf h
    exact List.mem_map_of_mem _ (List.mem_filter.mpr ⟨hf, by simp [h]⟩)

theorem claim_C10_witness :
    ("v2.mp4.part" ∈ ["v1.mp4", "v2.mp4.part"] ∧
      (splitext "v2.mp4.part").2 = ".part" ∧
      "v2.mp4.part" ∈ (get_downloaded_sample_ids
        ["v1.mp4", "v2.mp4.part"]).2) ∧
    ("v1.mp4" ∈ ["v1.mp4", "v2.mp4.part"] ∧
      (splitext "v1.mp4").2 ≠ ".part" ∧
      (splitext "v1.mp4").1 ∈ (get_downloaded_sample_ids
        ["v1.mp4", "v2.mp4.part"]).1) :=
  ⟨⟨by decide, by decide,
    (claim_C10_partial_files_excluded ["v1.mp4", "v2.mp4.part"]).1
      "v2.mp4.part" (by decide) (by decide)⟩,
   ⟨by decide, by decide,
    (claim_C10_partial_files_excluded ["v1.mp4", "v2.mp4.part"]).2.2
      "v1.mp4" (by decide) (by decide)⟩⟩

end FiftyOne
